import Mathlib

/-!
Verification model of the chat-app server core, translated from the
TypeScript sources: the storage layer (SQLite-backed repositories, modelled
as pure functions over a `Store`), the application use cases
(`src/application/useCases.ts`), and the connection manager
(`src/server/connectionManager.ts`) with its rate limiter, typing timers
and room-broadcast bookkeeping.

Modelling conventions:
- branded id types (`UserId`, `RoomId`, ...) are plain `String`s;
- `Date.now()` and `nanoid(...)` are supplied through an `Env` record;
- JavaScript `Map`s are association lists (`alget`/`alset`/`aldel`); key
  order is unobservable in the source (no code iterates over map keys),
  value order of subscriber `Set`s is kept faithfully (insertion order);
- a thrown JS exception is `Option.none` at the point where the source
  throws, and a rejected `await` inside `removeConnection` is modelled by
  failure flags that abort the remaining statements of that method;
- outbound effects (`ws.send`, `broadcastToRoom`, `events.emit`) are
  collected in order as a list of `Output` instructions.
-/

namespace ChatApp

/-- Association-list get, mirroring `Map.get` keyed by strings. -/
def alget {α : Type} (l : List (String × α)) (k : String) : Option α :=
  (l.find? (fun p => p.1 == k)).map (fun p => p.2)

/-- Association-list delete, used by `alset` and mirroring `Map.delete`. -/
def aldel {α : Type} (l : List (String × α)) (k : String) : List (String × α) :=
  l.filter (fun p => !(p.1 == k))

/-- Association-list set, mirroring `Map.set`. -/
def alset {α : Type} (l : List (String × α)) (k : String) (v : α) : List (String × α) :=
  (k, v) :: aldel l k

/-- ASCII lower-casing of one character (usernames are schema-restricted
to ASCII), written so that it reduces in the kernel. -/
def lowerChar (c : Char) : Char :=
  if 65 ≤ c.toNat ∧ c.toNat ≤ 90 then Char.ofNat (c.toNat + 32) else c

/-- `String.toLowerCase` for ASCII strings. -/
def lowerStr (s : String) : String :=
  ⟨s.data.map lowerChar⟩

/-- First `n` characters of a string (`String.slice(0, n)`). -/
def takeStr (s : String) (n : Nat) : String :=
  ⟨s.data.take n⟩

/-- Insert into a list sorted by `le` (helper for `sortBy`). -/
def insertLe {α : Type} (le : α → α → Bool) (a : α) : List α → List α
  | [] => [a]
  | b :: l => if le a b then a :: b :: l else b :: insertLe le a l

/-- Insertion sort, modelling SQL `ORDER BY`. -/
def sortBy {α : Type} (le : α → α → Bool) : List α → List α
  | [] => []
  | a :: l => insertLe le a (sortBy le l)

-- ============================================
-- Domain entities (src/shared/types.ts)
-- ============================================

inductive UserStatus
  | online
  | away
  | offline
deriving DecidableEq, Repr

structure User where
  id : String
  username : String
  avatar : String
  status : UserStatus
  joinedAt : Int
  lastSeenAt : Option Int
deriving DecidableEq, Repr

/-- A row of the `messages` table (including the SQLite soft-delete flag
`is_deleted`, which the domain `Message` entity does not carry). -/
structure MessageRow where
  id : String
  roomId : String
  authorId : String
  content : String
  createdAt : Int
  editedAt : Option Int
  replyTo : Option String
  isDeleted : Bool
deriving DecidableEq, Repr

structure Room where
  id : String
  name : String
  description : String
  createdAt : Int
deriving DecidableEq, Repr

/-- The persistent store backing the repositories: `users`, `messages`,
`rooms` tables and the `room_participants` join table (roomId, userId). -/
structure Store where
  users : List User
  messages : List MessageRow
  rooms : List Room
  participants : List (String × String)
deriving DecidableEq, Repr

-- ============================================
-- Repositories, SQLite semantics (src/infrastructure/repositories.ts)
-- ============================================

/-- `SELECT * FROM users WHERE id = ?`. -/
def usersFindById (st : Store) (id : String) : Option User :=
  st.users.find? (fun u => u.id == id)

/-- `SELECT * FROM users WHERE username = ? COLLATE NOCASE`. -/
def usersFindByUsername (st : Store) (username : String) : Option User :=
  st.users.find? (fun u => lowerStr u.username == lowerStr username)

/-- `INSERT INTO users ...`. -/
def usersSave (st : Store) (u : User) : Store :=
  { st with users := st.users ++ [u] }

/-- `UPDATE users SET status = ? WHERE id = ?`. -/
def usersUpdateStatus (st : Store) (id : String) (status : UserStatus) : Store :=
  { st with users := st.users.map (fun u => if u.id = id then { u with status := status } else u) }

/-- `UPDATE users SET last_seen_at = ? WHERE id = ?`. -/
def usersUpdateLastSeen (st : Store) (id : String) (now : Int) : Store :=
  { st with users := st.users.map (fun u => if u.id = id then { u with lastSeenAt := some now } else u) }

/-- `SELECT * FROM users WHERE id IN (...)` (table-scan order). -/
def usersFindByIds (st : Store) (ids : List String) : List User :=
  st.users.filter (fun u => ids.contains u.id)

/-- `SELECT * FROM messages WHERE id = ? AND is_deleted = 0`. -/
def messagesFindById (st : Store) (id : String) : Option MessageRow :=
  st.messages.find? (fun m => m.id == id && !m.isDeleted)

/-- `SELECT * FROM messages WHERE room_id = ? AND is_deleted = 0
[AND created_at < ?] ORDER BY created_at DESC LIMIT ?`, then reversed to
chronological order, as in `SQLiteMessageRepository.findByRoom`. -/
def messagesFindByRoom (st : Store) (roomId : String) (limit : Nat)
    (before : Option Int) : List MessageRow :=
  let rows := st.messages.filter (fun m =>
    m.roomId == roomId && !m.isDeleted &&
      (match before with
       | none => true
       | some b => decide (m.createdAt < b)))
  ((sortBy (fun a b => decide (b.createdAt ≤ a.createdAt)) rows).take limit).reverse

/-- `INSERT INTO messages ...`. -/
def messagesSave (st : Store) (m : MessageRow) : Store :=
  { st with messages := st.messages ++ [m] }

/-- `UPDATE messages SET content = ?, edited_at = ? WHERE id = ?`. -/
def messagesUpdate (st : Store) (m : MessageRow) : Store :=
  { st with messages := st.messages.map (fun x =>
      if x.id = m.id then { x with content := m.content, editedAt := m.editedAt } else x) }

/-- Soft delete: `UPDATE messages SET is_deleted = 1 WHERE id = ?`. -/
def messagesDelete (st : Store) (id : String) : Store :=
  { st with messages := st.messages.map (fun m =>
      if m.id = id then { m with isDeleted := true } else m) }

/-- `SELECT * FROM rooms WHERE id = ?` (the participant set the source
attaches to the entity is read from the join table where needed). -/
def roomsFindById (st : Store) (id : String) : Option Room :=
  st.rooms.find? (fun r => r.id == id)

/-- `SELECT * FROM rooms ORDER BY name`. -/
def roomsFindAll (st : Store) : List Room :=
  sortBy (fun a b => decide (a.name ≤ b.name)) st.rooms

/-- `INSERT OR IGNORE INTO room_participants ...`. -/
def roomsAddParticipant (st : Store) (roomId userId : String) : Store :=
  if (roomId, userId) ∈ st.participants then st
  else { st with participants := st.participants ++ [(roomId, userId)] }

/-- `DELETE FROM room_participants WHERE room_id = ? AND user_id = ?`. -/
def roomsRemoveParticipant (st : Store) (roomId userId : String) : Store :=
  { st with participants := st.participants.filter (fun p => !(p.1 == roomId && p.2 == userId)) }

/-- `SELECT user_id FROM room_participants WHERE room_id = ?`. -/
def roomsGetParticipants (st : Store) (roomId : String) : List String :=
  (st.participants.filter (fun p => p.1 == roomId)).map (fun p => p.2)

/-- `SELECT COUNT(*) FROM room_participants WHERE room_id = ?`. -/
def roomsGetParticipantCount (st : Store) (roomId : String) : Nat :=
  (roomsGetParticipants st roomId).length

-- ============================================
-- Factories and formatting (src/domain/entities.ts)
-- ============================================

def AVATAR_COLORS : List String :=
  ["#FF6B6B", "#4ECDC4", "#45B7D1", "#96CEB4", "#FFEAA7", "#DDA0DD",
   "#98D8C8", "#F7DC6F", "#BB8FCE", "#85C1E9", "#F8B500", "#FF6F61"]

/-- `UserFactory.generateAvatar`: sum of character codes mod the palette. -/
def generateAvatar (username : String) : String :=
  let hash := username.toList.foldl (fun acc ch => acc + ch.toNat) 0
  AVATAR_COLORS.getD (hash % AVATAR_COLORS.length) "#4ECDC4"

/-- `UserFactory.create({ username })` (id from `nanoid(12)`, supplied by
the environment). -/
def userCreate (username : String) (env_uid : String) (now : Int) : User :=
  { id := env_uid, username := username, avatar := generateAvatar username,
    status := .online, joinedAt := now, lastSeenAt := none }

/-- `UserFactory.updateStatus`. -/
def userUpdateStatus (u : User) (status : UserStatus) : User :=
  { u with status := status }

/-- `MessageFactory.create` (id from `nanoid(16)`). -/
def messageCreate (roomId authorId content : String) (replyTo : Option String)
    (env_mid : String) (now : Int) : MessageRow :=
  { id := env_mid, roomId := roomId, authorId := authorId, content := content,
    createdAt := now, editedAt := none, replyTo := replyTo, isDeleted := false }

/-- `MessageFactory.edit`. -/
def messageEdit (m : MessageRow) (newContent : String) (now : Int) : MessageRow :=
  { m with content := newContent, editedAt := some now }

/-- `MessageFormatter.truncateForPreview` with the default length 50. -/
def truncateForPreview (content : String) : String :=
  if content.length ≤ 50 then content else takeStr content 50 ++ "..."

-- ============================================
-- DTOs (src/shared/types.ts)
-- ============================================

structure ReplyInfo where
  id : String
  authorUsername : String
  contentPreview : String
deriving DecidableEq, Repr

structure AuthorInfo where
  id : String
  username : String
  avatar : String
deriving DecidableEq, Repr

structure MessageDTO where
  id : String
  roomId : String
  author : AuthorInfo
  content : String
  createdAt : Int
  editedAt : Option Int
  replyTo : Option ReplyInfo
deriving DecidableEq, Repr

structure RoomInfo where
  id : String
  name : String
  description : String
  participantCount : Nat
deriving DecidableEq, Repr

/-- `messageToDTO` from `useCases.ts`; `none` models the thrown error when
the author row is missing. A reply reference is resolved through
`messagesFindById` (which excludes soft-deleted rows) and silently dropped
when that lookup fails. -/
def messageToDTO (st : Store) (message : MessageRow) : Option MessageDTO :=
  match usersFindById st message.authorId with
  | none => none
  | some author =>
    let replyInfo : Option ReplyInfo :=
      match message.replyTo with
      | none => none
      | some rid =>
        match messagesFindById st rid with
        | none => none
        | some replyMessage =>
          let replyAuthor := usersFindById st replyMessage.authorId
          some { id := replyMessage.id,
                 authorUsername := (replyAuthor.map (fun u => u.username)).getD "Unknown",
                 contentPreview := truncateForPreview replyMessage.content }
    some { id := message.id, roomId := message.roomId,
           author := { id := author.id, username := author.username, avatar := author.avatar },
           content := message.content, createdAt := message.createdAt,
           editedAt := message.editedAt, replyTo := replyInfo }

-- ============================================
-- Server-to-client events and outbound effects
-- ============================================

/-- `ServerEvent` from `src/shared/types.ts`. -/
inductive ServerEvent
  | CONNECTED (user : User) (rooms : List RoomInfo)
  | USER_JOINED (user : User) (roomId : String)
  | USER_LEFT (userId roomId : String)
  | MESSAGE_RECEIVED (message : MessageDTO)
  | MESSAGE_EDITED (messageId content : String) (editedAt : Int)
  | MESSAGE_DELETED (messageId : String)
  | USER_TYPING (userId username roomId : String)
  | USER_STOPPED_TYPING (userId roomId : String)
  | USER_STATUS_CHANGED (userId : String) (status : UserStatus)
  | ROOM_HISTORY (roomId : String) (messages : List MessageDTO) (users : List User)
  | ERROR (code message : String)
deriving DecidableEq, Repr

/-- One outbound effect, in emission order: a `ws.send` to one connection,
a `broadcastToRoom` instruction (with the optional excluded connection), or
an `events.emit` of a domain event (name plus its identifying payload). -/
inductive Output
  | unicast (connId : String) (event : ServerEvent)
  | broadcast (roomId : String) (event : ServerEvent) (excludeConnId : Option String)
  | emitEvent (name : String) (payload : String)
deriving DecidableEq, Repr

/-- True for `ERROR`-frame sends. -/
def Output.isErrorFrame : Output → Bool
  | .unicast _ (.ERROR _ _) => true
  | .broadcast _ (.ERROR _ _) _ => true
  | _ => false

-- ============================================
-- Use cases (src/application/useCases.ts)
-- ============================================

/-- `UseCaseError` (message plus closed-set code). -/
structure UCError where
  message : String
  code : String
deriving DecidableEq, Repr

/-- The `Result<T, UseCaseError>` type of the use-case layer. -/
inductive UCResult (α : Type)
  | ok (data : α)
  | err (error : UCError)
deriving DecidableEq, Repr

/-- Nondeterministic inputs of one handler invocation: the clock reading
used for `Date.now()` and the `nanoid` values for a user / message created
during the call. -/
structure Env where
  now : Int
  uid : String
  mid : String
deriving DecidableEq, Repr

/-- `getOrCreateUser`: reuse (and re-online) an existing user found by
case-insensitive username, else create and save a new one. -/
def getOrCreateUser (username : String) (st : Store) (env : Env) : Store × User :=
  match usersFindByUsername st username with
  | some existingUser =>
      (usersUpdateStatus st existingUser.id .online, userUpdateStatus existingUser .online)
  | none =>
      let newUser := userCreate username env.uid env.now
      (usersSave st newUser, newUser)

/-- `getRoomMessagesWithAuthors` (last 50 messages of the room as DTOs);
`none` when some `messageToDTO` throws. -/
def getRoomMessagesWithAuthors (st : Store) (roomId : String) : Option (List MessageDTO) :=
  (messagesFindByRoom st roomId 50 none).mapM (messageToDTO st)

/-- `getOnlineParticipants`. -/
def getOnlineParticipants (st : Store) (roomId : String) : List User :=
  (usersFindByIds st (roomsGetParticipants st roomId)).filter (fun u => !(u.status == .offline))

structure JoinRoomOutput where
  user : User
  room : RoomInfo
  messages : List MessageDTO
  users : List User
deriving DecidableEq, Repr

/-- `useCases.joinRoom`. Returns the mutated store, the domain events
emitted, and the result (`none` = a thrown exception). -/
def ucJoinRoom (roomId username : String) (st : Store) (env : Env) :
    Store × List Output × Option (UCResult JoinRoomOutput) :=
  match roomsFindById st roomId with
  | none => (st, [], some (.err { message := "Room not found", code := "ROOM_NOT_FOUND" }))
  | some room =>
    let p := getOrCreateUser username st env
    let st := roomsAddParticipant p.1 roomId p.2.id
    match getRoomMessagesWithAuthors st roomId with
    | none => (st, [], none)
    | some messageDTOs =>
      let onlineUsers := getOnlineParticipants st roomId
      let participantCount := roomsGetParticipantCount st roomId
      (st,
       [Output.emitEvent "room:user-joined" p.2.id,
        Output.emitEvent "user:connected" p.2.id],
       some (.ok { user := p.2,
                   room := { id := room.id, name := room.name,
                             description := room.description,
                             participantCount := participantCount },
                   messages := messageDTOs, users := onlineUsers }))

/-- `useCases.leaveRoom`. -/
def ucLeaveRoom (userId roomId : String) (st : Store) (env : Env) :
    Store × List Output × Option (UCResult Unit) :=
  match roomsFindById st roomId with
  | none => (st, [], some (.err { message := "Room not found", code := "ROOM_NOT_FOUND" }))
  | some _ =>
    let st := roomsRemoveParticipant st roomId userId
    let st := usersUpdateStatus st userId .offline
    let st := usersUpdateLastSeen st userId env.now
    (st, [Output.emitEvent "room:user-left" userId], some (.ok ()))

/-- `useCases.sendMessage`. -/
def ucSendMessage (roomId authorId content : String) (replyTo : Option String)
    (st : Store) (env : Env) :
    Store × List Output × Option (UCResult MessageDTO) :=
  match roomsFindById st roomId with
  | none => (st, [], some (.err { message := "Room not found", code := "ROOM_NOT_FOUND" }))
  | some _ =>
    match usersFindById st authorId with
    | none => (st, [], some (.err { message := "User not found", code := "USER_NOT_FOUND" }))
    | some _ =>
      let message := messageCreate roomId authorId content replyTo env.mid env.now
      let st := messagesSave st message
      let outs := [Output.emitEvent "message:sent" message.id]
      match messageToDTO st message with
      | none => (st, outs, none)
      | some dto => (st, outs, some (.ok dto))

/-- `useCases.editMessage`. -/
def ucEditMessage (messageId userId content : String) (st : Store) (env : Env) :
    Store × List Output × Option (UCResult MessageRow) :=
  match messagesFindById st messageId with
  | none => (st, [], some (.err { message := "Message not found", code := "MESSAGE_NOT_FOUND" }))
  | some message =>
    if message.authorId ≠ userId then
      (st, [], some (.err { message := "Not authorized to edit this message", code := "UNAUTHORIZED" }))
    else
      let updatedMessage := messageEdit message content env.now
      let st := messagesUpdate st updatedMessage
      (st, [Output.emitEvent "message:edited" messageId], some (.ok updatedMessage))

/-- `useCases.deleteMessage`. -/
def ucDeleteMessage (messageId userId : String) (st : Store) (_env : Env) :
    Store × List Output × Option (UCResult Unit) :=
  match messagesFindById st messageId with
  | none => (st, [], some (.err { message := "Message not found", code := "MESSAGE_NOT_FOUND" }))
  | some message =>
    if message.authorId ≠ userId then
      (st, [], some (.err { message := "Not authorized to delete this message", code := "UNAUTHORIZED" }))
    else
      let st := messagesDelete st messageId
      (st, [Output.emitEvent "message:deleted" messageId], some (.ok ()))

/-- `useCases.updateUserStatus`. -/
def ucUpdateUserStatus (userId : String) (status : UserStatus) (st : Store) (_env : Env) :
    Store × List Output × Option (UCResult User) :=
  match usersFindById st userId with
  | none => (st, [], some (.err { message := "User not found", code := "USER_NOT_FOUND" }))
  | some user =>
    let st := usersUpdateStatus st userId status
    (st, [Output.emitEvent "user:status-changed" userId],
     some (.ok (userUpdateStatus user status)))

/-- `useCases.getRooms`. -/
def ucGetRooms (st : Store) : List RoomInfo :=
  (roomsFindAll st).map (fun room =>
    { id := room.id, name := room.name, description := room.description,
      participantCount := roomsGetParticipantCount st room.id })

-- ============================================
-- Connection manager (src/server/connectionManager.ts)
-- ============================================

def RATE_LIMIT_MESSAGES_PER_MINUTE : Nat := 30
def TYPING_TIMEOUT_MS : Int := 3000

/-- `ConnectionState`: per-connection mutable session state; the
`setTimeout` handle is a timer id into the manager's live-timer table. -/
structure ConnectionState where
  userId : Option String
  roomId : Option String
  username : Option String
  typingTimeout : Option Nat
  lastMessageTime : Int
  messageCount : Nat
deriving DecidableEq, Repr

/-- The fresh state built at websocket upgrade (`src/server/index.ts`). -/
def initialConnectionState : ConnectionState :=
  { userId := none, roomId := none, username := none,
    typingTimeout := none, lastMessageTime := 0, messageCount := 0 }

/-- A pending `setTimeout` of `handleTypingStart`: its handle, the owning
connection, and the `payload.roomId` captured by the callback closure. -/
structure Timer where
  id : Nat
  connId : String
  roomId : String
deriving DecidableEq, Repr

/-- The `ConnectionManager` registry state; `timers`/`nextTimerId` model
the runtime's pending-timeout table. -/
structure CM where
  connections : List (String × ConnectionState)
  userConnections : List (String × String)
  roomSubscriptions : List (String × List String)
  timers : List Timer
  nextTimerId : Nat
deriving DecidableEq, Repr

/-- Whole-system state: registry plus persistent store. -/
structure Sys where
  cm : CM
  store : Store
deriving DecidableEq, Repr

/-- Result of one handler run: new state, ordered outbound effects, the
use-case functions invoked (ghost instrumentation of call sites), and
whether the handler ended in a thrown/rejected error. -/
structure StepRes where
  sys : Sys
  outs : List Output
  ucCalls : List String
  threw : Bool
deriving DecidableEq, Repr

def getState (cm : CM) (c : String) : Option ConnectionState :=
  alget cm.connections c

def setState (cm : CM) (c : String) (s : ConnectionState) : CM :=
  { cm with connections := alset cm.connections c s }

/-- Private `joinRoom`: add the connection to the room's subscriber set
(`Set.add`: no duplicate, insertion order preserved). -/
def joinRoomSub (cm : CM) (connId roomId : String) : CM :=
  let subscribers := (alget cm.roomSubscriptions roomId).getD []
  let subscribers := if connId ∈ subscribers then subscribers else subscribers ++ [connId]
  { cm with roomSubscriptions := alset cm.roomSubscriptions roomId subscribers }

/-- Private `leaveRoom`: drop the connection from the room's subscriber
set, deleting the room entry when it becomes empty. -/
def leaveRoomSub (cm : CM) (connId roomId : String) : CM :=
  match alget cm.roomSubscriptions roomId with
  | none => cm
  | some subscribers =>
    let subscribers := subscribers.erase connId
    if subscribers = [] then
      { cm with roomSubscriptions := aldel cm.roomSubscriptions roomId }
    else
      { cm with roomSubscriptions := alset cm.roomSubscriptions roomId subscribers }

/-- `clearTimeout` on a stored handle. -/
def clearTimer (cm : CM) (t : Nat) : CM :=
  { cm with timers := cm.timers.filter (fun tm => !(tm.id == t)) }

/-- The room's subscriber set as read by `broadcastToRoom` (empty when the
room is unknown). -/
def subsOf (cm : CM) (roomId : String) : List String :=
  (alget cm.roomSubscriptions roomId).getD []

/-- The connections a `broadcast` instruction is delivered to: the
subscriber set minus the excluded connection, restricted to live
connections (`broadcastToRoom`'s loop). -/
def recipients (cm : CM) (roomId : String) (excludeConnId : Option String) : List String :=
  (subsOf cm roomId).filter (fun connId =>
    !(some connId == excludeConnId) && (getState cm connId).isSome)

/-- `checkRateLimit`: reset the counter when more than 60 s have passed
since the last attempt, then count this attempt; admitted while the count
stays within the ceiling. -/
def checkRateLimit (state : ConnectionState) (now : Int) : Bool × ConnectionState :=
  let oneMinuteAgo := now - 60000
  let state :=
    if state.lastMessageTime < oneMinuteAgo then
      { state with messageCount := 0, lastMessageTime := now }
    else state
  let state := { state with messageCount := state.messageCount + 1, lastMessageTime := now }
  (decide (state.messageCount ≤ RATE_LIMIT_MESSAGES_PER_MINUTE), state)

/-- Body of `handleTypingStop` (also invoked by `handleSendMessage` and by
the auto-stop timer callback): requires an authorized session, cancels the
pending timer if any, always broadcasts `USER_STOPPED_TYPING` to the
payload's room excluding the connection itself. -/
def typingStopCore (cm : CM) (connId roomId : String) : CM × List Output :=
  match getState cm connId with
  | none => (cm, [])
  | some s =>
    match s.userId with
    | none => (cm, [])
    | some u =>
      let cm :=
        match s.typingTimeout with
        | some t => setState (clearTimer cm t) connId { s with typingTimeout := none }
        | none => cm
      (cm, [Output.broadcast roomId (.USER_STOPPED_TYPING u roomId) (some connId)])

/-- `handleJoinRoom`. -/
def handleJoinRoom (sys : Sys) (connId : String) (s : ConnectionState)
    (roomId username : String) (env : Env) : StepRes :=
  let r := ucJoinRoom roomId username sys.store env
  match r.2.2 with
  | none => { sys := { cm := sys.cm, store := r.1 }, outs := r.2.1,
              ucCalls := ["joinRoom"], threw := true }
  | some (.err e) =>
      { sys := { cm := sys.cm, store := r.1 },
        outs := r.2.1 ++ [Output.unicast connId (.ERROR e.code e.message)],
        ucCalls := ["joinRoom"], threw := false }
  | some (.ok data) =>
      let cm := setState sys.cm connId
        { s with userId := some data.user.id, roomId := some roomId,
                 username := some data.user.username }
      let cm := { cm with userConnections := alset cm.userConnections data.user.id connId }
      let cm := joinRoomSub cm connId roomId
      let rooms := ucGetRooms r.1
      { sys := { cm := cm, store := r.1 },
        outs := r.2.1 ++
          [Output.unicast connId (.CONNECTED data.user rooms),
           Output.unicast connId (.ROOM_HISTORY roomId data.messages data.users),
           Output.broadcast roomId (.USER_JOINED data.user roomId) (some connId)],
        ucCalls := ["joinRoom", "getRooms"], threw := false }

/-- `handleLeaveRoom`: guarded on `userId`/`roomId`; the use-case result is
ignored; the subscription is dropped and `USER_LEFT` broadcast (with no
exclusion) regardless of the use-case outcome. -/
def handleLeaveRoom (sys : Sys) (connId : String) (s : ConnectionState)
    (roomId : String) (env : Env) : StepRes :=
  match s.userId, s.roomId with
  | some u, some _ =>
      let r := ucLeaveRoom u roomId sys.store env
      let cm := leaveRoomSub sys.cm connId roomId
      { sys := { cm := cm, store := r.1 },
        outs := r.2.1 ++ [Output.broadcast roomId (.USER_LEFT u roomId) none],
        ucCalls := ["leaveRoom"], threw := false }
  | _, _ => { sys := sys, outs := [], ucCalls := [], threw := false }

/-- `handleSendMessage`: authorization gate, then rate limit (whose counter
update is written back even on rejection), then the use case; on success
the sender's typing indicator is stopped and `MESSAGE_RECEIVED` broadcast
to the payload's room with no exclusion. -/
def handleSendMessage (sys : Sys) (connId : String) (s : ConnectionState)
    (roomId content : String) (replyTo : Option String) (env : Env) : StepRes :=
  match s.userId, s.username with
  | some u, some _ =>
      let rl := checkRateLimit s env.now
      let cm := setState sys.cm connId rl.2
      if !rl.1 then
        { sys := { cm := cm, store := sys.store },
          outs := [Output.unicast connId (.ERROR "RATE_LIMITED" "Too many messages. Please slow down.")],
          ucCalls := [], threw := false }
      else
        let r := ucSendMessage roomId u content replyTo sys.store env
        match r.2.2 with
        | none => { sys := { cm := cm, store := r.1 }, outs := r.2.1,
                    ucCalls := ["sendMessage"], threw := true }
        | some (.err e) =>
            { sys := { cm := cm, store := r.1 },
              outs := r.2.1 ++ [Output.unicast connId (.ERROR e.code e.message)],
              ucCalls := ["sendMessage"], threw := false }
        | some (.ok dto) =>
            let stop := typingStopCore cm connId roomId
            { sys := { cm := stop.1, store := r.1 },
              outs := r.2.1 ++ stop.2 ++
                [Output.broadcast roomId (.MESSAGE_RECEIVED dto) none],
              ucCalls := ["sendMessage"], threw := false }
  | _, _ =>
      { sys := sys,
        outs := [Output.unicast connId (.ERROR "UNAUTHORIZED" "Must join a room first")],
        ucCalls := [], threw := false }

/-- `handleEditMessage`: silently ignored when unauthorized; on use-case
failure the error code is mirrored when the frame schema knows it, else
`INTERNAL_ERROR`; on success `MESSAGE_EDITED` is broadcast to the session's
current room, if any. -/
def handleEditMessage (sys : Sys) (connId : String) (s : ConnectionState)
    (messageId content : String) (env : Env) : StepRes :=
  match s.userId with
  | none => { sys := sys, outs := [], ucCalls := [], threw := false }
  | some u =>
    let r := ucEditMessage messageId u content sys.store env
    match r.2.2 with
    | none => { sys := { cm := sys.cm, store := r.1 }, outs := r.2.1,
                ucCalls := ["editMessage"], threw := true }
    | some (.err e) =>
        let code := if e.code = "MESSAGE_NOT_FOUND" ∨ e.code = "UNAUTHORIZED"
                    then e.code else "INTERNAL_ERROR"
        { sys := { cm := sys.cm, store := r.1 },
          outs := r.2.1 ++ [Output.unicast connId (.ERROR code e.message)],
          ucCalls := ["editMessage"], threw := false }
    | some (.ok updated) =>
        let outs :=
          match s.roomId with
          | some room =>
              [Output.broadcast room
                (.MESSAGE_EDITED messageId content (updated.editedAt.getD 0)) none]
          | none => []
        { sys := { cm := sys.cm, store := r.1 }, outs := r.2.1 ++ outs,
          ucCalls := ["editMessage"], threw := false }

/-- `handleDeleteMessage`. -/
def handleDeleteMessage (sys : Sys) (connId : String) (s : ConnectionState)
    (messageId : String) (env : Env) : StepRes :=
  match s.userId with
  | none => { sys := sys, outs := [], ucCalls := [], threw := false }
  | some u =>
    let r := ucDeleteMessage messageId u sys.store env
    match r.2.2 with
    | none => { sys := { cm := sys.cm, store := r.1 }, outs := r.2.1,
                ucCalls := ["deleteMessage"], threw := true }
    | some (.err e) =>
        { sys := { cm := sys.cm, store := r.1 },
          outs := r.2.1 ++ [Output.unicast connId (.ERROR e.code e.message)],
          ucCalls := ["deleteMessage"], threw := false }
    | some (.ok _) =>
        let outs :=
          match s.roomId with
          | some room => [Output.broadcast room (.MESSAGE_DELETED messageId) none]
          | none => []
        { sys := { cm := sys.cm, store := r.1 }, outs := r.2.1 ++ outs,
          ucCalls := ["deleteMessage"], threw := false }

/-- `handleTypingStart`: (re)arm the single auto-stop timer (cancelling any
prior one) whose callback runs `handleTypingStop` with the same payload,
then broadcast `USER_TYPING` excluding the sender. -/
def handleTypingStart (sys : Sys) (connId : String) (s : ConnectionState)
    (roomId : String) : StepRes :=
  match s.userId, s.username with
  | some u, some un =>
      let cm :=
        match s.typingTimeout with
        | some t => clearTimer sys.cm t
        | none => sys.cm
      let tid := cm.nextTimerId
      let cm := { cm with timers := cm.timers ++ [{ id := tid, connId := connId, roomId := roomId }],
                          nextTimerId := tid + 1 }
      let cm := setState cm connId { s with typingTimeout := some tid }
      { sys := { cm := cm, store := sys.store },
        outs := [Output.broadcast roomId (.USER_TYPING u un roomId) (some connId)],
        ucCalls := [], threw := false }
  | _, _ => { sys := sys, outs := [], ucCalls := [], threw := false }

/-- `handleTypingStop` as an inbound frame handler. -/
def handleTypingStop (sys : Sys) (connId : String) (roomId : String) : StepRes :=
  let r := typingStopCore sys.cm connId roomId
  { sys := { cm := r.1, store := sys.store }, outs := r.2, ucCalls := [], threw := false }

/-- The manager's `user:status-changed` listener: resolve every room the
user participates in (via `rooms.findAll`) and broadcast
`USER_STATUS_CHANGED` to each. -/
def statusChangedOuts (st : Store) (userId : String) (status : UserStatus) : List Output :=
  ((roomsFindAll st).filter (fun room => (roomsGetParticipants st room.id).contains userId)).map
    (fun room => Output.broadcast room.id (.USER_STATUS_CHANGED userId status) none)

/-- `handleUpdateStatus`: guarded on `userId`; the use-case result is
ignored; the `user:status-changed` event emitted inside a successful use
case fires the manager's listener. -/
def handleUpdateStatus (sys : Sys) (_connId : String) (s : ConnectionState)
    (status : UserStatus) (env : Env) : StepRes :=
  match s.userId with
  | none => { sys := sys, outs := [], ucCalls := [], threw := false }
  | some u =>
    let r := ucUpdateUserStatus u status sys.store env
    let listenerOuts :=
      match r.2.2 with
      | some (.ok _) => statusChangedOuts r.1 u status
      | _ => []
    { sys := { cm := sys.cm, store := r.1 }, outs := r.2.1 ++ listenerOuts,
      ucCalls := ["updateUserStatus"], threw := false }

/-- `ClientEvent` from `src/shared/types.ts` (schema-validated frames). -/
inductive ClientEvent
  | JOIN_ROOM (roomId username : String)
  | LEAVE_ROOM (roomId : String)
  | SEND_MESSAGE (roomId content : String) (replyTo : Option String)
  | EDIT_MESSAGE (messageId content : String)
  | DELETE_MESSAGE (messageId : String)
  | TYPING_START (roomId : String)
  | TYPING_STOP (roomId : String)
  | UPDATE_STATUS (status : UserStatus)
deriving DecidableEq, Repr

/-- `handleMessage`/`routeEvent` on an already schema-validated frame: look
up the connection (unknown connection: logged and ignored) and dispatch. -/
def step (sys : Sys) (connId : String) (ev : ClientEvent) (env : Env) : StepRes :=
  match getState sys.cm connId with
  | none => { sys := sys, outs := [], ucCalls := [], threw := false }
  | some s =>
    match ev with
    | .JOIN_ROOM roomId username => handleJoinRoom sys connId s roomId username env
    | .LEAVE_ROOM roomId => handleLeaveRoom sys connId s roomId env
    | .SEND_MESSAGE roomId content replyTo =>
        handleSendMessage sys connId s roomId content replyTo env
    | .EDIT_MESSAGE messageId content => handleEditMessage sys connId s messageId content env
    | .DELETE_MESSAGE messageId => handleDeleteMessage sys connId s messageId env
    | .TYPING_START roomId => handleTypingStart sys connId s roomId
    | .TYPING_STOP roomId => handleTypingStop sys connId roomId
    | .UPDATE_STATUS status => handleUpdateStatus sys connId s status env

/-- `removeConnection`: cancel the typing timer, leave and notify the
active room, then mark the user offline and stamp last-seen in storage and
emit `user:disconnected`, finally drop the connection from the registry.
The two storage awaits are not guarded by any try/catch in the source: the
flags mark them as rejecting, which aborts the remaining statements (the
rejection propagates to the caller as `threw`). -/
def removeConnection (sys : Sys) (id : String) (now : Int)
    (failStatus failLastSeen : Bool) : StepRes :=
  match getState sys.cm id with
  | none =>
      { sys := { cm := { sys.cm with connections := aldel sys.cm.connections id },
                 store := sys.store },
        outs := [], ucCalls := [], threw := false }
  | some s =>
    let cm :=
      match s.typingTimeout with
      | some t => clearTimer sys.cm t
      | none => sys.cm
    let roomPart : CM × List Output :=
      match s.roomId with
      | some r =>
          (leaveRoomSub cm id r,
           [Output.broadcast r (.USER_LEFT (s.userId.getD "") r) (some id)])
      | none => (cm, [])
    match s.userId with
    | some u =>
        if failStatus then
          { sys := { cm := roomPart.1, store := sys.store }, outs := roomPart.2,
            ucCalls := [], threw := true }
        else
          let st := usersUpdateStatus sys.store u .offline
          if failLastSeen then
            { sys := { cm := roomPart.1, store := st }, outs := roomPart.2,
              ucCalls := [], threw := true }
          else
            let st := usersUpdateLastSeen st u now
            { sys := { cm := { roomPart.1 with connections := aldel roomPart.1.connections id },
                       store := st },
              outs := roomPart.2 ++ [Output.emitEvent "user:disconnected" u],
              ucCalls := [], threw := false }
    | none =>
        { sys := { cm := { roomPart.1 with connections := aldel roomPart.1.connections id },
                   store := sys.store },
          outs := roomPart.2, ucCalls := [], threw := false }

/-- Firing a pending auto-stop timer: the runtime removes it from the
pending table and runs its callback,
`handleTypingStop(connectionId, state, payload)`. -/
def fireTimer (sys : Sys) (tid : Nat) : StepRes :=
  match sys.cm.timers.find? (fun tm => tm.id == tid) with
  | none => { sys := sys, outs := [], ucCalls := [], threw := false }
  | some tm =>
    let cm := clearTimer sys.cm tid
    let r := typingStopCore cm tm.connId tm.roomId
    { sys := { cm := r.1, store := sys.store }, outs := r.2, ucCalls := [], threw := false }

/-- The inbound events of the transport boundary. -/
inductive Action
  | accept (connId : String)
  | frame (connId : String) (ev : ClientEvent) (env : Env)
  | fire (tid : Nat)
  | close (connId : String) (now : Int)
deriving DecidableEq, Repr

/-- One transport event: `open` registers a fresh connection
(`addConnection` with the upgrade-time state), `frame` dispatches a
validated client frame, `fire` runs a due typing timer, `close` tears the
connection down (storage calls succeeding). -/
def applyAction (sys : Sys) : Action → StepRes
  | .accept c =>
      { sys := { cm := { sys.cm with connections := alset sys.cm.connections c initialConnectionState },
                 store := sys.store },
        outs := [], ucCalls := [], threw := false }
  | .frame c ev env => step sys c ev env
  | .fire tid => fireTimer sys tid
  | .close c now => removeConnection sys c now false false

/-- Run a sequence of transport events. -/
def runTrace (sys : Sys) : List Action → Sys
  | [] => sys
  | a :: rest => runTrace (applyAction sys a).sys rest

-- ============================================
-- Derived definitions used by the claims
-- ============================================

/-- Run `checkRateLimit` over a sequence of attempt timestamps, collecting
each attempt's admit/reject verdict and the final session state. -/
def rateResults (s : ConnectionState) : List Int → List Bool × ConnectionState
  | [] => ([], s)
  | t :: ts =>
    let r := checkRateLimit s t
    let rest := rateResults r.2 ts
    (r.1 :: rest.1, rest.2)

/-- The timestamps are nondecreasing and each gap from the previous attempt
(starting from `last`) is at most 60 s: no attempt triggers the rate-window
reset. -/
def withinWindow : Int → List Int → Bool
  | _, [] => true
  | last, t :: ts => decide (last ≤ t) && decide (t - last ≤ 60000) && withinWindow t ts

/-- Expected admit verdicts for `n` attempts starting from counter `c0`
under the default ceiling of 30. -/
def expectedAdmits (c0 : Nat) : Nat → List Bool
  | 0 => []
  | n + 1 => decide (c0 + 1 ≤ RATE_LIMIT_MESSAGES_PER_MINUTE) :: expectedAdmits (c0 + 1) n

/-- A connection appears in at most one room's subscriber set. -/
def AtMostOneRoom (cm : CM) : Prop :=
  ∀ c r₁ r₂, c ∈ subsOf cm r₁ → c ∈ subsOf cm r₂ → r₁ = r₂

/-- A connection currently subscribed to no room at all. -/
def NotSubscribed (cm : CM) (c : String) : Prop :=
  ∀ r, c ∉ subsOf cm r

/-- Traces in which every `JOIN_ROOM` frame arrives on a connection that is
subscribed to no room (fresh, or after leaving/closing its previous room). -/
def OkRun (sys : Sys) : List Action → Prop
  | [] => True
  | a :: rest =>
    (match a with
     | .frame c (.JOIN_ROOM _ _) _ => NotSubscribed sys.cm c
     | _ => True) ∧ OkRun (applyAction sys a).sys rest

/-- The pending timers belonging to one connection. -/
def timersOf (cm : CM) (c : String) : List Timer :=
  cm.timers.filter (fun tm => tm.connId == c)

/-- The timers not owned by connection `c` all have ids below `n0` (used as
a freshness bound for newly armed timer handles). -/
def OthersOk (others : List Timer) (c : String) (n0 : Nat) : Prop :=
  ∀ tm ∈ others, tm.connId ≠ c ∧ tm.id < n0

/-- Invariant after arming: connection `c` holds exactly one pending
auto-stop timer for room `r`, appended after the unrelated timers
`others`, with a handle at or above the freshness bound `n0`. -/
def ArmedInv (sys : Sys) (c r u un : String) (others : List Timer) (n0 : Nat) : Prop :=
  ∃ t s, getState sys.cm c = some s ∧ s.userId = some u ∧ s.username = some un ∧
    s.typingTimeout = some t ∧ n0 ≤ t ∧ t < sys.cm.nextTimerId ∧
    sys.cm.timers = others ++ [{ id := t, connId := c, roomId := r }]

-- ============================================
-- Concrete fixtures for witnesses and counterexamples
-- ============================================

def roomGeneral : Room :=
  { id := "general", name := "General", description := "Welcome", createdAt := 0 }

def roomTech : Room :=
  { id := "tech", name := "Tech", description := "Technology", createdAt := 0 }

/-- A store with two rooms and no users or messages. -/
def store0 : Store :=
  { users := [], messages := [], rooms := [roomGeneral, roomTech], participants := [] }

def env1 : Env := { now := 100000, uid := "u1", mid := "m1" }
def env2 : Env := { now := 200000, uid := "u2", mid := "m2" }

def sys0 : Sys :=
  { cm := { connections := [], userConnections := [], roomSubscriptions := [],
            timers := [], nextTimerId := 0 },
    store := store0 }

/-- True for `USER_STOPPED_TYPING` sends. -/
def Output.isStopFrame : Output → Bool
  | .unicast _ (.USER_STOPPED_TYPING _ _) => true
  | .broadcast _ (.USER_STOPPED_TYPING _ _) _ => true
  | _ => false

/-- `n` consecutive `TYPING_START` frames for the same room on the same
connection, collecting all outputs. -/
def runStarts (sys : Sys) (connId roomId : String) (env : Env) : Nat → Sys × List Output
  | 0 => (sys, [])
  | n + 1 =>
    let r := step sys connId (.TYPING_START roomId) env
    let rest := runStarts r.sys connId roomId env n
    (rest.1, r.outs ++ rest.2)

/-- Session state of a connection that joined `general` as alice. -/
def csAlice : ConnectionState :=
  { userId := some "u1", roomId := some "general", username := some "alice",
    typingTimeout := none, lastMessageTime := 0, messageCount := 0 }

def aliceUser : User :=
  { id := "u1", username := "alice", avatar := "#98D8C8", status := .online,
    joinedAt := 0, lastSeenAt := none }

def bobUser : User :=
  { id := "u2", username := "bob", avatar := "#4ECDC4", status := .online,
    joinedAt := 0, lastSeenAt := none }

def msgHello : MessageRow :=
  { id := "m1", roomId := "general", authorId := "u1", content := "hello",
    createdAt := 10, editedAt := none, replyTo := none, isDeleted := false }

def msgReply : MessageRow :=
  { id := "m2", roomId := "general", authorId := "u2", content := "hi there",
    createdAt := 20, editedAt := none, replyTo := some "m1", isDeleted := false }

/-- A store where alice wrote `m1` and bob replied to it with `m2`. -/
def store9 : Store :=
  { users := [aliceUser, bobUser], messages := [msgHello, msgReply],
    rooms := [roomGeneral], participants := [("general", "u1"), ("general", "u2")] }

/-- A system where connection `c1` (alice) has joined `general`, with a
second subscriber `c2` present in the room's set. -/
def sysJoined : Sys :=
  { cm := { connections := [("c1", csAlice)], userConnections := [("u1", "c1")],
            roomSubscriptions := [("general", ["c1", "c2"])],
            timers := [], nextTimerId := 0 },
    store := store9 }

/-- `sysJoined` with `c1`'s rate counter already at the ceiling inside the
current window. -/
def csLimit : ConnectionState :=
  { csAlice with lastMessageTime := 100000, messageCount := 30 }

def sysLimit : Sys :=
  { sysJoined with cm := { sysJoined.cm with connections := [("c1", csLimit)] } }

-- ============================================
-- Helper lemmas
-- ============================================

theorem find?_filter_none {α : Type} (l : List α) (p q : α → Bool)
    (h : ∀ a, q a = true → p a = false) : (l.filter p).find? q = none := by
  rw [List.find?_eq_none]
  intro a ha hq
  have hp := List.of_mem_filter ha
  rw [h a hq] at hp
  cases hp

theorem find?_filter_imp {α : Type} (l : List α) (p q : α → Bool)
    (h : ∀ a, q a = true → p a = true) : (l.filter p).find? q = l.find? q := by
  induction l with
  | nil => rfl
  | cons a l ih =>
    simp only [List.filter_cons]
    cases hq : q a with
    | true =>
      rw [h a hq]
      simp only [if_true, List.find?_cons, hq]
    | false =>
      cases hp : p a with
      | true => simp only [if_true, List.find?_cons, hq, ih]
      | false => simp only [Bool.false_eq_true, if_false, ih, List.find?_cons, hq]

theorem alget_aldel_self {α : Type} (l : List (String × α)) (k : String) :
    alget (aldel l k) k = none := by
  unfold alget aldel
  rw [find?_filter_none]
  · rfl
  · intro a ha
    rw [ha]
    rfl

theorem aldel_of_alget_none {α : Type} (l : List (String × α)) (k : String)
    (h : alget l k = none) : aldel l k = l := by
  unfold alget at h
  unfold aldel
  rw [List.filter_eq_self]
  intro a ha
  cases hk : (a.1 == k) with
  | true =>
    exfalso
    have : l.find? (fun p => p.1 == k) = none := by
      cases hf : l.find? (fun p => p.1 == k)
      · rfl
      · rw [hf] at h; cases h
    rw [List.find?_eq_none] at this
    exact this a ha hk
  | false => rfl

theorem alget_alset_self {α : Type} (l : List (String × α)) (k : String) (v : α) :
    alget (alset l k v) k = some v := by
  unfold alget alset
  rw [List.find?_cons]
  simp

theorem alget_alset_ne {α : Type} (l : List (String × α)) (k k' : String) (v : α)
    (h : k' ≠ k) : alget (alset l k v) k' = alget l k' := by
  unfold alget alset aldel
  rw [List.find?_cons]
  have hk : ((k, v).1 == k') = false := by
    simp only [beq_iff_eq]
    exact decide_eq_false (fun he => h he.symm)
  simp only [show (fun p => p.1 == k') (k, v) = ((k, v).1 == k') from rfl]
  rw [hk]
  simp only [Bool.false_eq_true, if_false]
  rw [find?_filter_imp]
  intro a ha
  cases hak : (a.1 == k) with
  | true =>
    exfalso
    have h1 : a.1 = k' := by
      have := ha
      rwa [beq_iff_eq] at this
    have h2 : a.1 = k := by rwa [beq_iff_eq] at hak
    exact h (h1 ▸ h2)
  | false => rfl

-- ============================================
-- C2: how the 60-second rate window is measured
-- ============================================

/-- C2 counterexample: the window is NOT measured from the window's start.
Starting from a fresh connection, 31 attempts at t = 100000 open a window
at 100000 (the 31st is rejected); a rejected attempt at t = 150000 then
refreshes `lastMessageTime`; the attempt at t = 170000 arrives 70 s after
the window started, yet it is rejected (the counter reaches 33), because
the code measures the 60 s gap from the last attempt, not from the
window's start. -/
theorem C2_rate_window_from_window_start_cex :
    (rateResults initialConnectionState
        (List.replicate 31 100000 ++ [150000, 170000])).1.getLast? = some false ∧
    (rateResults initialConnectionState
        (List.replicate 31 100000 ++ [150000, 170000])).2.messageCount = 33 ∧
    (170000 : Int) - 100000 ≥ 60000 := by decide

/-- C2 (amended): the rate window is measured from the LAST attempt, whose
timestamp is refreshed on every attempt including rejected ones: on a
SEND_MESSAGE attempt, if now − lastMessageTime is strictly greater than
60 s the count resets to 0 (and the attempt is admitted with count 1);
otherwise no reset happens and the count just increments. In particular
the first attempt arriving more than 60 s after the previous attempt
succeeds. -/
theorem C2_rate_window_from_last_attempt :
    (∀ (s : ConnectionState) (now : Int), s.lastMessageTime < now - 60000 →
      checkRateLimit s now =
        (true, { s with messageCount := 1, lastMessageTime := now })) ∧
    (∀ (s : ConnectionState) (now : Int), ¬ s.lastMessageTime < now - 60000 →
      checkRateLimit s now =
        (decide (s.messageCount + 1 ≤ RATE_LIMIT_MESSAGES_PER_MINUTE),
         { s with messageCount := s.messageCount + 1, lastMessageTime := now })) := by
  constructor
  · intro s now h
    simp [checkRateLimit, h, RATE_LIMIT_MESSAGES_PER_MINUTE]
  · intro s now h
    simp [checkRateLimit, h]

/-- Witness for `C2_rate_window_from_last_attempt` at concrete inputs. -/
theorem C2_rate_window_from_last_attempt_witness :
    checkRateLimit { initialConnectionState with messageCount := 5 } 70000 =
      (true, { initialConnectionState with messageCount := 1, lastMessageTime := 70000 }) ∧
    checkRateLimit { initialConnectionState with messageCount := 5 } 50000 =
      (decide (5 + 1 ≤ RATE_LIMIT_MESSAGES_PER_MINUTE),
       { initialConnectionState with messageCount := 6, lastMessageTime := 50000 }) :=
  ⟨C2_rate_window_from_last_attempt.1 _ 70000 (by decide),
   C2_rate_window_from_last_attempt.2 _ 50000 (by decide)⟩

-- ============================================
-- C1: rate-limit ceiling inside one window
-- ============================================

/-- Inside one window (no gap above 60 s), no reset fires: the counter
climbs by one per attempt and the k-th attempt is admitted exactly when
the counter stays within the ceiling. -/
theorem rateResults_no_reset (ts : List Int) :
    ∀ (s : ConnectionState), withinWindow s.lastMessageTime ts = true →
      (rateResults s ts).1 = expectedAdmits s.messageCount ts.length ∧
      (rateResults s ts).2.messageCount = s.messageCount + ts.length := by
  induction ts with
  | nil => intro s _; exact ⟨rfl, rfl⟩
  | cons t ts ih =>
    intro s hw
    unfold withinWindow at hw
    have h1 : (decide (s.lastMessageTime ≤ t) &&
        (decide (t - s.lastMessageTime ≤ 60000) && withinWindow t ts)) = true := by
      simpa [Bool.and_assoc] using hw
    rw [Bool.and_eq_true, Bool.and_eq_true] at h1
    have hle : s.lastMessageTime ≤ t := of_decide_eq_true h1.1
    have hgap : t - s.lastMessageTime ≤ 60000 := of_decide_eq_true h1.2.1
    have hrest : withinWindow t ts = true := h1.2.2
    have hno : ¬ s.lastMessageTime < t - 60000 := by omega
    have hstep : checkRateLimit s t =
        (decide (s.messageCount + 1 ≤ RATE_LIMIT_MESSAGES_PER_MINUTE),
         { s with messageCount := s.messageCount + 1, lastMessageTime := t }) := by
      simp [checkRateLimit, hno]
    have ihr := ih { s with messageCount := s.messageCount + 1, lastMessageTime := t } hrest
    unfold rateResults
    rw [hstep]
    refine ⟨?_, ?_⟩
    · simpa [expectedAdmits] using ihr.1
    · rw [List.length_cons, ihr.2]
      show s.messageCount + 1 + ts.length = s.messageCount + (ts.length + 1)
      omega

/-- C1: within one 60-second rate window (no inter-attempt gap above 60 s,
so the counter never resets), attempts are admitted exactly while the
counter stays at or below the ceiling of 30 — so attempts 1..30 pass and
the 31st is rejected — and the counter keeps climbing by one on every
attempt, rejected ones included; and at the handler level a rejected
SEND_MESSAGE produces exactly one RATE_LIMITED error frame to the sender,
leaves the store untouched (nothing persisted), broadcasts nothing, calls
no use case, and still increments the per-connection counter. -/
theorem C1_rate_limit_ceiling :
    (∀ (s : ConnectionState) (ts : List Int),
      withinWindow s.lastMessageTime ts = true → s.messageCount = 0 →
      (rateResults s ts).1 = expectedAdmits 0 ts.length ∧
      (rateResults s ts).2.messageCount = ts.length) ∧
    (∀ (sys : Sys) (connId : String) (s : ConnectionState) (u un roomId content : String)
      (replyTo : Option String) (env : Env),
      getState sys.cm connId = some s → s.userId = some u → s.username = some un →
      ¬ s.lastMessageTime < env.now - 60000 →
      RATE_LIMIT_MESSAGES_PER_MINUTE ≤ s.messageCount →
      step sys connId (.SEND_MESSAGE roomId content replyTo) env =
        { sys := { cm := setState sys.cm connId
                     { s with messageCount := s.messageCount + 1, lastMessageTime := env.now },
                   store := sys.store },
          outs := [Output.unicast connId
                     (.ERROR "RATE_LIMITED" "Too many messages. Please slow down.")],
          ucCalls := [], threw := false }) := by
  constructor
  · intro s ts hw h0
    have := rateResults_no_reset ts s hw
    rw [h0] at this
    simpa using this
  · intro sys connId s u un roomId content replyTo env hs hu hun hno hceil
    have hrl : checkRateLimit s env.now =
        (decide (s.messageCount + 1 ≤ RATE_LIMIT_MESSAGES_PER_MINUTE),
         { s with messageCount := s.messageCount + 1, lastMessageTime := env.now }) := by
      simp [checkRateLimit, hno]
    have hfalse : decide (s.messageCount + 1 ≤ RATE_LIMIT_MESSAGES_PER_MINUTE) = false := by
      simp only [decide_eq_false_iff_not]
      omega
    simp [step, hs, handleSendMessage, hu, hun, hrl, hfalse]

/-- Witness for `C1_rate_limit_ceiling`: 31 attempts at t = 100000 from a
fresh window, and the handler-level rejection on `sysLimit` (counter
already at 30 inside the window). -/
theorem C1_rate_limit_ceiling_witness :
    ((rateResults { initialConnectionState with lastMessageTime := 100000 }
        (List.replicate 31 100000)).1 = expectedAdmits 0 31 ∧
     (rateResults { initialConnectionState with lastMessageTime := 100000 }
        (List.replicate 31 100000)).2.messageCount = 31) ∧
    step sysLimit "c1" (.SEND_MESSAGE "general" "hi" none) { now := 150000, uid := "x", mid := "x" } =
      { sys := { cm := setState sysLimit.cm "c1"
                   { csLimit with messageCount := 31, lastMessageTime := 150000 },
                 store := sysLimit.store },
        outs := [Output.unicast "c1"
                   (.ERROR "RATE_LIMITED" "Too many messages. Please slow down.")],
        ucCalls := [], threw := false } := by
  refine ⟨?_, ?_⟩
  · have := C1_rate_limit_ceiling.1 { initialConnectionState with lastMessageTime := 100000 }
      (List.replicate 31 100000) (by decide) rfl
    simpa using this
  · exact C1_rate_limit_ceiling.2 sysLimit "c1" csLimit "u1" "alice" "general" "hi" none
      { now := 150000, uid := "x", mid := "x" } (by decide) rfl rfl (by decide) (by decide)

-- ============================================
-- C8: authorization gate before JOIN_ROOM
-- ============================================

/-- C8: while the session's `userId` is unset, SEND_MESSAGE, EDIT_MESSAGE,
DELETE_MESSAGE, TYPING_START and TYPING_STOP never reach the use-case
layer (no use-case call, no state or store change): SEND_MESSAGE is
answered with exactly one UNAUTHORIZED error frame, the other four are
silently ignored — consistently per event type. -/
theorem C8_authorization_gate :
    ∀ (sys : Sys) (connId : String) (s : ConnectionState) (env : Env),
      getState sys.cm connId = some s → s.userId = none →
      (∀ roomId content replyTo,
        step sys connId (.SEND_MESSAGE roomId content replyTo) env =
          { sys := sys,
            outs := [Output.unicast connId (.ERROR "UNAUTHORIZED" "Must join a room first")],
            ucCalls := [], threw := false }) ∧
      (∀ messageId content,
        step sys connId (.EDIT_MESSAGE messageId content) env =
          { sys := sys, outs := [], ucCalls := [], threw := false }) ∧
      (∀ messageId,
        step sys connId (.DELETE_MESSAGE messageId) env =
          { sys := sys, outs := [], ucCalls := [], threw := false }) ∧
      (∀ roomId,
        step sys connId (.TYPING_START roomId) env =
          { sys := sys, outs := [], ucCalls := [], threw := false }) ∧
      (∀ roomId,
        step sys connId (.TYPING_STOP roomId) env =
          { sys := sys, outs := [], ucCalls := [], threw := false }) := by
  intro sys connId s env hs hu
  refine ⟨?_, ?_, ?_, ?_, ?_⟩
  · intro roomId content replyTo
    simp [step, hs, handleSendMessage, hu]
  · intro messageId content
    simp [step, hs, handleEditMessage, hu]
  · intro messageId
    simp [step, hs, handleDeleteMessage, hu]
  · intro roomId
    simp [step, hs, handleTypingStart, hu]
  · intro roomId
    simp [step, hs, handleTypingStop, typingStopCore, hu]

/-- Witness for `C8_authorization_gate` on a freshly accepted connection. -/
theorem C8_authorization_gate_witness :
    step (runTrace sys0 [Action.accept "c9"]) "c9" (.SEND_MESSAGE "general" "hi" none) env1 =
      { sys := runTrace sys0 [Action.accept "c9"],
        outs := [Output.unicast "c9" (.ERROR "UNAUTHORIZED" "Must join a room first")],
        ucCalls := [], threw := false } ∧
    step (runTrace sys0 [Action.accept "c9"]) "c9" (.TYPING_START "general") env1 =
      { sys := runTrace sys0 [Action.accept "c9"], outs := [], ucCalls := [], threw := false } :=
  ⟨(C8_authorization_gate (runTrace sys0 [Action.accept "c9"]) "c9"
      initialConnectionState env1 (by decide) rfl).1 "general" "hi" none,
   (C8_authorization_gate (runTrace sys0 [Action.accept "c9"]) "c9"
      initialConnectionState env1 (by decide) rfl).2.2.2.1 "general"⟩

-- ============================================
-- C3: removeConnection and storage failures
-- ============================================

theorem clearTimer_connections (cm : CM) (t : Nat) :
    (clearTimer cm t).connections = cm.connections := rfl

theorem leaveRoomSub_connections (cm : CM) (c r : String) :
    (leaveRoomSub cm c r).connections = cm.connections := by
  unfold leaveRoomSub
  cases alget cm.roomSubscriptions r with
  | none => rfl
  | some subs =>
    dsimp only
    split <;> rfl

/-- C3 counterexample: on `sysJoined`, a connection with a user and an
active room, a failing `updateStatus` storage call makes `removeConnection`
reject (`threw = true`) — the promise does not resolve, contradicting
"never throws" — while the already-done USER_LEFT broadcast stands and the
connection is left in the registry (the final delete is skipped). -/
theorem C3_removeConnection_throws_cex :
    (removeConnection sysJoined "c1" 5000 true false).threw = true ∧
    (removeConnection sysJoined "c1" 5000 true false).outs =
      [Output.broadcast "general" (.USER_LEFT "u1" "general") (some "c1")] ∧
    getState (removeConnection sysJoined "c1" 5000 true false).sys.cm "c1" = some csAlice := by
  decide

/-- C3 (amended): `removeConnection` never throws when the teardown storage
calls succeed; the room-departure broadcast is emitted before the storage
calls, so it is never undone by a later storage failure; but a failure of
the mark-offline call is NOT caught: it propagates to the caller as a
rejection, leaves the store untouched and skips deleting the connection
from the registry. -/
theorem C3_removeConnection_teardown :
    (∀ (sys : Sys) (id : String) (now : Int),
      (removeConnection sys id now false false).threw = false) ∧
    (∀ (sys : Sys) (id : String) (now : Int) (f1 f2 : Bool) (s : ConnectionState) (r : String),
      getState sys.cm id = some s → s.roomId = some r →
      (Output.broadcast r (.USER_LEFT (s.userId.getD "") r) (some id)) ∈
        (removeConnection sys id now f1 f2).outs) ∧
    (∀ (sys : Sys) (id : String) (now : Int) (f2 : Bool) (s : ConnectionState) (u : String),
      getState sys.cm id = some s → s.userId = some u →
      (removeConnection sys id now true f2).threw = true ∧
      (removeConnection sys id now true f2).sys.store = sys.store ∧
      getState (removeConnection sys id now true f2).sys.cm id = some s) := by
  refine ⟨?_, ?_, ?_⟩
  · intro sys id now
    unfold removeConnection
    cases h : getState sys.cm id with
    | none => rfl
    | some s =>
      cases hu : s.userId with
      | none => simp [hu]
      | some u => simp [hu]
  · intro sys id now f1 f2 s r hs hr
    unfold removeConnection
    rw [hs]
    cases hu : s.userId with
    | none => simp [hu, hr]
    | some u =>
      cases f1 <;> cases f2 <;> simp [hu, hr]
  · intro sys id now f2 s u hs hu
    unfold removeConnection
    rw [hs]
    dsimp only
    rw [hu]
    refine ⟨rfl, rfl, ?_⟩
    cases ht : s.typingTimeout <;> cases hr : s.roomId <;>
      simp [ht, hr, getState, clearTimer_connections, leaveRoomSub_connections] <;>
      exact hs

/-- Witness for `C3_removeConnection_teardown` on `sysJoined`. -/
theorem C3_removeConnection_teardown_witness :
    (removeConnection sysJoined "c1" 5000 false false).threw = false ∧
    (Output.broadcast "general" (.USER_LEFT "u1" "general") (some "c1")) ∈
      (removeConnection sysJoined "c1" 5000 false true).outs ∧
    (removeConnection sysJoined "c1" 5000 true true).sys.store = sysJoined.store :=
  ⟨C3_removeConnection_teardown.1 sysJoined "c1" 5000,
   C3_removeConnection_teardown.2.1 sysJoined "c1" 5000 false true csAlice "general"
     (by decide) rfl,
   (C3_removeConnection_teardown.2.2 sysJoined "c1" 5000 true csAlice "u1"
     (by decide) rfl).2.1⟩

-- ============================================
-- C6: removeConnection is idempotent
-- ============================================

/-- C6: after a completed teardown (storage calls succeeding), a second
`removeConnection` with the same id is a no-op: no broadcast, no storage
update (the store is part of the unchanged system), no event emission, no
throw — whatever the failure flags of the second call, since its storage
calls are never reached. -/
theorem C6_removeConnection_idempotent :
    ∀ (sys : Sys) (id : String) (now now2 : Int) (f1 f2 : Bool),
      removeConnection (removeConnection sys id now false false).sys id now2 f1 f2 =
        { sys := (removeConnection sys id now false false).sys,
          outs := [], ucCalls := [], threw := false } := by
  intro sys id now now2 f1 f2
  have hnone : getState (removeConnection sys id now false false).sys.cm id = none := by
    unfold removeConnection
    cases h : getState sys.cm id with
    | none => simpa [getState] using alget_aldel_self sys.cm.connections id
    | some s =>
      cases hu : s.userId with
      | none => simp [hu, getState, alget_aldel_self]
      | some u => simp [hu, getState, alget_aldel_self]
  conv_lhs => rw [removeConnection]
  rw [hnone]
  have hd : aldel (removeConnection sys id now false false).sys.cm.connections id =
      (removeConnection sys id now false false).sys.cm.connections :=
    aldel_of_alget_none _ _ hnone
  simp [hd]

-- ============================================
-- C9: soft delete and reply references
-- ============================================

theorem find?_marked_deleted (l : List MessageRow) (mid : String) :
    ((l.map (fun m => if m.id = mid then { m with isDeleted := true } else m)).find?
      (fun m => m.id == mid && !m.isDeleted)) = none := by
  induction l with
  | nil => rfl
  | cons a l ih =>
    simp only [List.map_cons, List.find?_cons]
    by_cases h : a.id = mid
    · simp [h, ih]
    · have hb : (a.id == mid) = false := beq_eq_false_iff_ne.mpr h
      simp [h, hb, ih]

/-- C9 counterexample: in `store9`, bob's `m2` replies to alice's `m1` and
its DTO resolves the reply with author name "alice"; after
`deleteMessage(m1, u1)` succeeds (a soft delete), the reply reference no
longer resolves at all — `m2`'s DTO carries no reply info, instead of
remaining resolvable with the original author's name — because `findById`
filters out soft-deleted rows. -/
theorem C9_soft_delete_reply_cex :
    (messageToDTO store9 msgReply).map (fun dto => dto.replyTo) =
      some (some { id := "m1", authorUsername := "alice", contentPreview := "hello" }) ∧
    (ucDeleteMessage "m1" "u1" store9 env1).2.2 = some (.ok ()) ∧
    (messageToDTO (ucDeleteMessage "m1" "u1" store9 env1).1 msgReply).map
        (fun dto => dto.replyTo) = some none := by
  decide

/-- C9 (amended): DELETE_MESSAGE performs a soft delete — the row is kept
with `is_deleted = 1`, so the reply foreign key stays intact — but
`findById` excludes deleted rows, so a reply whose `replyTo` references
the deleted message resolves no reply info at all (the DTO omits the
`replyTo` block); the original author's name is not recovered. -/
theorem C9_soft_delete :
    ∀ (messageId userId : String) (st : Store) (env : Env),
      (ucDeleteMessage messageId userId st env).2.2 = some (.ok ()) →
      (ucDeleteMessage messageId userId st env).1.messages =
        st.messages.map (fun m => if m.id = messageId then { m with isDeleted := true } else m) ∧
      messagesFindById (ucDeleteMessage messageId userId st env).1 messageId = none ∧
      (∀ (m : MessageRow) (dto : MessageDTO),
        messageToDTO (ucDeleteMessage messageId userId st env).1 m = some dto →
        m.replyTo = some messageId → dto.replyTo = none) := by
  intro messageId userId st env hok
  have key : (ucDeleteMessage messageId userId st env).1 = messagesDelete st messageId := by
    unfold ucDeleteMessage at hok ⊢
    cases hf : messagesFindById st messageId with
    | none => rw [hf] at hok; simp at hok
    | some message =>
      rw [hf] at hok
      dsimp only at hok ⊢
      by_cases ha : message.authorId ≠ userId
      · rw [if_pos ha] at hok; simp at hok
      · rw [if_neg ha]
  have hfd : messagesFindById (ucDeleteMessage messageId userId st env).1 messageId = none := by
    rw [key]
    unfold messagesFindById messagesDelete
    exact find?_marked_deleted st.messages messageId
  refine ⟨by rw [key]; rfl, hfd, ?_⟩
  intro m dto hdto hrep
  unfold messageToDTO at hdto
  cases hau : usersFindById (ucDeleteMessage messageId userId st env).1 m.authorId with
  | none => rw [hau] at hdto; cases hdto
  | some author =>
    rw [hau, hrep] at hdto
    dsimp only at hdto
    rw [hfd] at hdto
    cases hdto
    rfl

/-- Witness for `C9_soft_delete` on `store9`. -/
theorem C9_soft_delete_witness :
    (ucDeleteMessage "m1" "u1" store9 env1).1.messages =
      store9.messages.map (fun m => if m.id = "m1" then { m with isDeleted := true } else m) ∧
    messagesFindById (ucDeleteMessage "m1" "u1" store9 env1).1 "m1" = none :=
  ⟨(C9_soft_delete "m1" "u1" store9 env1 (by decide)).1,
   (C9_soft_delete "m1" "u1" store9 env1 (by decide)).2.1⟩

-- ============================================
-- C5: use-case failures and ERROR frames
-- ============================================

/-- C5 counterexample: on `sysJoined`, a LEAVE_ROOM for the non-existent
room "ghost" makes the use case fail with ROOM_NOT_FOUND, yet the handler
sends NO ERROR frame to the sender and still issues the USER_LEFT
broadcast — the use-case result is ignored. -/
theorem C5_leave_room_ignores_failure_cex :
    (ucLeaveRoom "u1" "ghost" sysJoined.store env1).2.2 =
      some (.err { message := "Room not found", code := "ROOM_NOT_FOUND" }) ∧
    (step sysJoined "c1" (.LEAVE_ROOM "ghost") env1).outs =
      [Output.broadcast "ghost" (.USER_LEFT "u1" "ghost") none] ∧
    (step sysJoined "c1" (.LEAVE_ROOM "ghost") env1).outs.filter Output.isErrorFrame = [] := by
  decide

/-- C5 (amended): for JOIN_ROOM, SEND_MESSAGE, EDIT_MESSAGE and
DELETE_MESSAGE a use-case failure is answered with a unicast ERROR frame
whose code mirrors the use case's error code (EDIT_MESSAGE falling back to
INTERNAL_ERROR for codes its frame narrowing does not recognize); but
LEAVE_ROOM ignores its use-case result: on failure it sends no ERROR frame
and still removes the subscription and broadcasts USER_LEFT. -/
theorem C5_use_case_failure_frames :
    (∀ (sys : Sys) (c : String) (s : ConnectionState) (roomId username : String) (env : Env)
       (st2 : Store) (outsE : List Output) (e : UCError),
      getState sys.cm c = some s →
      ucJoinRoom roomId username sys.store env = (st2, outsE, some (.err e)) →
      step sys c (.JOIN_ROOM roomId username) env =
        { sys := { cm := sys.cm, store := st2 },
          outs := outsE ++ [Output.unicast c (.ERROR e.code e.message)],
          ucCalls := ["joinRoom"], threw := false }) ∧
    (∀ (sys : Sys) (c : String) (s : ConnectionState) (roomId content : String)
       (replyTo : Option String) (env : Env) (u un : String)
       (st2 : Store) (outsE : List Output) (e : UCError),
      getState sys.cm c = some s → s.userId = some u → s.username = some un →
      (checkRateLimit s env.now).1 = true →
      ucSendMessage roomId u content replyTo sys.store env = (st2, outsE, some (.err e)) →
      step sys c (.SEND_MESSAGE roomId content replyTo) env =
        { sys := { cm := setState sys.cm c (checkRateLimit s env.now).2, store := st2 },
          outs := outsE ++ [Output.unicast c (.ERROR e.code e.message)],
          ucCalls := ["sendMessage"], threw := false }) ∧
    (∀ (sys : Sys) (c : String) (s : ConnectionState) (messageId content : String) (env : Env)
       (u : String) (st2 : Store) (outsE : List Output) (e : UCError),
      getState sys.cm c = some s → s.userId = some u →
      ucEditMessage messageId u content sys.store env = (st2, outsE, some (.err e)) →
      step sys c (.EDIT_MESSAGE messageId content) env =
        { sys := { cm := sys.cm, store := st2 },
          outs := outsE ++ [Output.unicast c
            (.ERROR (if e.code = "MESSAGE_NOT_FOUND" ∨ e.code = "UNAUTHORIZED"
                     then e.code else "INTERNAL_ERROR") e.message)],
          ucCalls := ["editMessage"], threw := false }) ∧
    (∀ (sys : Sys) (c : String) (s : ConnectionState) (messageId : String) (env : Env)
       (u : String) (st2 : Store) (outsE : List Output) (e : UCError),
      getState sys.cm c = some s → s.userId = some u →
      ucDeleteMessage messageId u sys.store env = (st2, outsE, some (.err e)) →
      step sys c (.DELETE_MESSAGE messageId) env =
        { sys := { cm := sys.cm, store := st2 },
          outs := outsE ++ [Output.unicast c (.ERROR e.code e.message)],
          ucCalls := ["deleteMessage"], threw := false }) ∧
    (∀ (sys : Sys) (c : String) (s : ConnectionState) (roomId : String) (env : Env)
       (u r0 : String) (st2 : Store) (outsE : List Output) (e : UCError),
      getState sys.cm c = some s → s.userId = some u → s.roomId = some r0 →
      ucLeaveRoom u roomId sys.store env = (st2, outsE, some (.err e)) →
      outsE = [] ∧
      step sys c (.LEAVE_ROOM roomId) env =
        { sys := { cm := leaveRoomSub sys.cm c roomId, store := st2 },
          outs := [Output.broadcast roomId (.USER_LEFT u roomId) none],
          ucCalls := ["leaveRoom"], threw := false }) := by
  refine ⟨?_, ?_, ?_, ?_, ?_⟩
  · intro sys c s roomId username env st2 outsE e hs huc
    simp [step, hs, handleJoinRoom, huc]
  · intro sys c s roomId content replyTo env u un st2 outsE e hs hu hun hrl huc
    simp [step, hs, handleSendMessage, hu, hun, hrl, huc]
  · intro sys c s messageId content env u st2 outsE e hs hu huc
    simp [step, hs, handleEditMessage, hu, huc]
  · intro sys c s messageId env u st2 outsE e hs hu huc
    simp [step, hs, handleDeleteMessage, hu, huc]
  · intro sys c s roomId env u r0 st2 outsE e hs hu hroom huc
    have hparts : outsE = [] := by
      unfold ucLeaveRoom at huc
      cases hr : roomsFindById sys.store roomId with
      | none =>
        rw [hr] at huc
        simp only [Prod.mk.injEq] at huc
        exact huc.2.1.symm
      | some room => rw [hr] at huc; simp at huc
    refine ⟨hparts, ?_⟩
    rw [hparts] at huc
    simp [step, hs, handleLeaveRoom, hu, hroom, huc]

/-- Witness for `C5_use_case_failure_frames`: an EDIT_MESSAGE on a missing
message id answered with a mirrored MESSAGE_NOT_FOUND error, and the
failing LEAVE_ROOM of the counterexample scenario. -/
theorem C5_use_case_failure_frames_witness :
    step sysJoined "c1" (.EDIT_MESSAGE "nope" "x") env1 =
      { sys := { cm := sysJoined.cm, store := sysJoined.store },
        outs := [Output.unicast "c1"
          (.ERROR (if ("MESSAGE_NOT_FOUND" : String) = "MESSAGE_NOT_FOUND" ∨
                      ("MESSAGE_NOT_FOUND" : String) = "UNAUTHORIZED"
                   then "MESSAGE_NOT_FOUND" else "INTERNAL_ERROR") "Message not found")],
        ucCalls := ["editMessage"], threw := false } ∧
    step sysJoined "c1" (.LEAVE_ROOM "ghost") env1 =
      { sys := { cm := leaveRoomSub sysJoined.cm "c1" "ghost", store := sysJoined.store },
        outs := [Output.broadcast "ghost" (.USER_LEFT "u1" "ghost") none],
        ucCalls := ["leaveRoom"], threw := false } :=
  ⟨by
    have h := C5_use_case_failure_frames.2.2.1 sysJoined "c1" csAlice "nope" "x" env1
      "u1" sysJoined.store []
      { message := "Message not found", code := "MESSAGE_NOT_FOUND" }
      (by decide) rfl (by decide)
    simpa using h,
   (C5_use_case_failure_frames.2.2.2.2 sysJoined "c1" csAlice "ghost" env1
      "u1" "general" sysJoined.store []
      { message := "Room not found", code := "ROOM_NOT_FOUND" }
      (by decide) rfl rfl (by decide)).2⟩

-- ============================================
-- C7: typing auto-stop timers
-- ============================================

theorem filter_idem {α : Type} (p : α → Bool) (l : List α) :
    (l.filter p).filter p = l.filter p := by
  rw [List.filter_filter]
  simp

theorem clearTimer_idem (cm : CM) (t : Nat) :
    clearTimer (clearTimer cm t) t = clearTimer cm t := by
  unfold clearTimer
  simp only [filter_idem]

/-- One TYPING_START on an already-armed connection keeps the invariant
and emits no stop broadcast. -/
theorem armed_step (c r u un : String) (env : Env) (others : List Timer) (n0 : Nat)
    (sys : Sys) (hoth : OthersOk others c n0) (hinv : ArmedInv sys c r u un others n0) :
    (step sys c (.TYPING_START r) env).outs.filter Output.isStopFrame = [] ∧
    ArmedInv (step sys c (.TYPING_START r) env).sys c r u un others n0 := by
  obtain ⟨t, s, hs, hu, hun, ht, hn0, hlt, htm⟩ := hinv
  have hclear : sys.cm.timers.filter (fun tm => !(tm.id == t)) = others := by
    rw [htm, List.filter_append]
    have h1 : others.filter (fun tm => !(tm.id == t)) = others :=
      List.filter_eq_self.mpr (fun tm hm => by
        have hid : tm.id ≠ t := by
          have := (hoth tm hm).2
          omega
        simp [hid])
    have h2 : ([{ id := t, connId := c, roomId := r }] : List Timer).filter
        (fun tm => !(tm.id == t)) = [] := by simp
    rw [h1, h2, List.append_nil]
  have hres : step sys c (.TYPING_START r) env =
      { sys := { cm := setState
                   { sys.cm with
                     timers := others ++
                       [{ id := sys.cm.nextTimerId, connId := c, roomId := r }],
                     nextTimerId := sys.cm.nextTimerId + 1 }
                   c { s with typingTimeout := some sys.cm.nextTimerId },
                 store := sys.store },
        outs := [Output.broadcast r (.USER_TYPING u un r) (some c)],
        ucCalls := [], threw := false } := by
    simp only [step, hs, handleTypingStart, hu, hun, ht]
    simp [clearTimer, hclear]
  rw [hres]
  constructor
  · simp [Output.isStopFrame]
  · refine ⟨sys.cm.nextTimerId, { s with typingTimeout := some sys.cm.nextTimerId },
      ?_, hu, hun, rfl, by omega, by simp [setState], by simp [setState]⟩
    simp [getState, setState, alget_alset_self]

/-- Iterating TYPING_START keeps the invariant and never emits a stop
broadcast. -/
theorem runStarts_armed (c r u un : String) (env : Env) (others : List Timer) (n0 : Nat)
    (hoth : OthersOk others c n0) :
    ∀ (n : Nat) (sys : Sys), ArmedInv sys c r u un others n0 →
      ArmedInv (runStarts sys c r env n).1 c r u un others n0 ∧
      (runStarts sys c r env n).2.filter Output.isStopFrame = [] := by
  intro n
  induction n with
  | zero => intro sys h; exact ⟨h, rfl⟩
  | succ n ih =>
    intro sys h
    have hstep := armed_step c r u un env others n0 sys hoth h
    unfold runStarts
    refine ⟨(ih _ hstep.2).1, ?_⟩
    rw [List.filter_append, hstep.1, (ih _ hstep.2).2]
    rfl

/-- C7 counterexample: arming the timer with a TYPING_START whose payload
names room "random" while the connection's current room is "general"
makes the fired timer broadcast the stop to "random" — NOT behaving as an
inbound TYPING_STOP for the connection's current room, whose broadcast
targets "general". -/
theorem C7_timer_fires_payload_room_cex :
    (getState (step sysJoined "c1" (.TYPING_START "random") env1).sys.cm "c1").map
        (fun s => s.roomId) = some (some "general") ∧
    (fireTimer (step sysJoined "c1" (.TYPING_START "random") env1).sys 0).outs =
      [Output.broadcast "random" (.USER_STOPPED_TYPING "u1" "random") (some "c1")] ∧
    (step (step sysJoined "c1" (.TYPING_START "random") env1).sys "c1"
        (.TYPING_STOP "general") env2).outs =
      [Output.broadcast "general" (.USER_STOPPED_TYPING "u1" "general") (some "c1")] ∧
    (fireTimer (step sysJoined "c1" (.TYPING_START "random") env1).sys 0).outs ≠
      (step (step sysJoined "c1" (.TYPING_START "random") env1).sys "c1"
        (.TYPING_STOP "general") env2).outs := by
  decide

/-- C7 (amended): at most one typing auto-stop timer is pending per
connection — N consecutive TYPING_STARTs from a clean typing state leave
exactly one pending timer for the connection and produce zero
USER_STOPPED_TYPING broadcasts — and when the timer fires it behaves
exactly as an inbound TYPING_STOP frame for the room named in the
TYPING_START payload that armed it (which is the connection's current room
only when the client named its current room). -/
theorem C7_typing_timer :
    (∀ (sys : Sys) (c r u un : String) (s : ConnectionState) (env : Env) (n : Nat),
      getState sys.cm c = some s → s.userId = some u → s.username = some un →
      s.typingTimeout = none → timersOf sys.cm c = [] →
      (∀ tm ∈ sys.cm.timers, tm.id < sys.cm.nextTimerId) → 1 ≤ n →
      (timersOf (runStarts sys c r env n).1.cm c).length = 1 ∧
      (runStarts sys c r env n).2.filter Output.isStopFrame = []) ∧
    (∀ (sys : Sys) (c r u : String) (s : ConnectionState) (t : Nat) (env : Env),
      getState sys.cm c = some s → s.userId = some u → s.typingTimeout = some t →
      sys.cm.timers.find? (fun tm => tm.id == t) =
        some { id := t, connId := c, roomId := r } →
      fireTimer sys t = step sys c (.TYPING_STOP r) env) := by
  constructor
  · intro sys c r u un s env n hs hu hun ht htof hfresh hn
    have hoth : OthersOk sys.cm.timers c sys.cm.nextTimerId := by
      intro tm hm
      refine ⟨?_, hfresh tm hm⟩
      have := List.filter_eq_nil_iff.mp htof tm hm
      simpa using this
    obtain ⟨m, rfl⟩ : ∃ m, n = m + 1 := ⟨n - 1, by omega⟩
    have hfirst : (step sys c (.TYPING_START r) env).outs.filter Output.isStopFrame = [] ∧
        ArmedInv (step sys c (.TYPING_START r) env).sys c r u un
          sys.cm.timers sys.cm.nextTimerId := by
      have hres : step sys c (.TYPING_START r) env =
          { sys := { cm := setState
                       { sys.cm with
                         timers := sys.cm.timers ++
                           [{ id := sys.cm.nextTimerId, connId := c, roomId := r }],
                         nextTimerId := sys.cm.nextTimerId + 1 }
                       c { s with typingTimeout := some sys.cm.nextTimerId },
                     store := sys.store },
            outs := [Output.broadcast r (.USER_TYPING u un r) (some c)],
            ucCalls := [], threw := false } := by
        simp only [step, hs, handleTypingStart, hu, hun, ht]
      rw [hres]
      constructor
      · simp [Output.isStopFrame]
      · refine ⟨sys.cm.nextTimerId, { s with typingTimeout := some sys.cm.nextTimerId },
          ?_, hu, hun, rfl, by omega, by simp [setState], by simp [setState]⟩
        simp [getState, setState, alget_alset_self]
    have hrest := runStarts_armed c r u un env sys.cm.timers sys.cm.nextTimerId hoth m
      (step sys c (.TYPING_START r) env).sys hfirst.2
    constructor
    · obtain ⟨t, s2, _, _, _, _, _, _, htm⟩ := hrest.1
      show (timersOf (runStarts sys c r env (m + 1)).1.cm c).length = 1
      unfold runStarts
      unfold timersOf
      rw [htm, List.filter_append]
      have h1 : (sys.cm.timers.filter (fun tm => tm.connId == c)) = [] := htof
      have h2 : ([{ id := t, connId := c, roomId := r }] : List Timer).filter
          (fun tm => tm.connId == c) = [{ id := t, connId := c, roomId := r }] := by simp
      rw [h1, h2]
      rfl
    · show ((runStarts sys c r env (m + 1)).2.filter Output.isStopFrame) = []
      unfold runStarts
      rw [List.filter_append, hfirst.1, hrest.2]
      rfl
  · intro sys c r u s t env hs hu ht hfind
    have hpair : typingStopCore (clearTimer sys.cm t) c r = typingStopCore sys.cm c r := by
      unfold typingStopCore
      rw [show getState (clearTimer sys.cm t) c = getState sys.cm c from rfl, hs]
      dsimp only
      rw [hu, ht]
      dsimp only
      rw [clearTimer_idem]
    show fireTimer sys t = step sys c (.TYPING_STOP r) env
    unfold fireTimer
    rw [hfind]
    simp only [step, hs]
    unfold handleTypingStop
    rw [hpair]

/-- Witness for `C7_typing_timer` on `sysJoined`: three TYPING_STARTs in a
row, and the fire of the armed timer against an inbound TYPING_STOP. -/
theorem C7_typing_timer_witness :
    ((timersOf (runStarts sysJoined "c1" "general" env1 3).1.cm "c1").length = 1 ∧
     (runStarts sysJoined "c1" "general" env1 3).2.filter Output.isStopFrame = []) ∧
    fireTimer (step sysJoined "c1" (.TYPING_START "general") env1).sys 0 =
      step (step sysJoined "c1" (.TYPING_START "general") env1).sys "c1"
        (.TYPING_STOP "general") env2 :=
  ⟨C7_typing_timer.1 sysJoined "c1" "general" "u1" "alice" csAlice env1 3
     (by decide) rfl rfl rfl (by decide) (by decide) (by decide),
   C7_typing_timer.2 (step sysJoined "c1" (.TYPING_START "general") env1).sys
     "c1" "general" "u1" { csAlice with typingTimeout := some 0 } 0 env2
     (by decide) rfl rfl (by decide)⟩

-- ============================================
-- C4: single active room per connection
-- ============================================

theorem alget_aldel_ne {α : Type} (l : List (String × α)) (k k' : String)
    (h : k' ≠ k) : alget (aldel l k) k' = alget l k' := by
  unfold alget aldel
  rw [find?_filter_imp]
  intro a ha
  cases hak : (a.1 == k) with
  | true =>
    exfalso
    have h1 : a.1 = k' := by rwa [beq_iff_eq] at ha
    have h2 : a.1 = k := by rwa [beq_iff_eq] at hak
    exact h (h1 ▸ h2)
  | false => rfl

theorem subsOf_setState (cm : CM) (c : String) (s : ConnectionState) (r : String) :
    subsOf (setState cm c s) r = subsOf cm r := rfl

theorem mem_subsOf_joinRoomSub (cm : CM) (c roomId c' r' : String)
    (h : c' ∈ subsOf (joinRoomSub cm c roomId) r') :
    c' ∈ subsOf cm r' ∨ (c' = c ∧ r' = roomId) := by
  unfold joinRoomSub at h
  unfold subsOf at h ⊢
  by_cases hr : r' = roomId
  · subst hr
    rw [alget_alset_self, Option.getD_some] at h
    by_cases hc : c ∈ ((alget cm.roomSubscriptions r').getD [])
    · rw [if_pos hc] at h
      exact .inl h
    · rw [if_neg hc] at h
      rcases List.mem_append.mp h with h1 | h1
      · exact .inl h1
      · simp only [List.mem_singleton] at h1
        exact .inr ⟨h1, rfl⟩
  · rw [alget_alset_ne _ _ _ _ hr] at h
    exact .inl h

theorem mem_subsOf_leaveRoomSub (cm : CM) (c roomId c' r' : String)
    (h : c' ∈ subsOf (leaveRoomSub cm c roomId) r') : c' ∈ subsOf cm r' := by
  unfold leaveRoomSub at h
  cases hg : alget cm.roomSubscriptions roomId with
  | none => rw [hg] at h; exact h
  | some subs =>
    rw [hg] at h
    dsimp only at h
    by_cases he : subs.erase c = []
    · rw [if_pos he] at h
      unfold subsOf at h ⊢
      by_cases hr : r' = roomId
      · subst hr
        rw [alget_aldel_self] at h
        exact absurd h (List.not_mem_nil c')
      · rw [alget_aldel_ne _ _ _ hr] at h
        exact h
    · rw [if_neg he] at h
      unfold subsOf at h ⊢
      by_cases hr : r' = roomId
      · subst hr
        rw [alget_alset_self] at h
        rw [hg]
        exact List.erase_subset _ _ h
      · rw [alget_alset_ne _ _ _ _ hr] at h
        exact h

theorem typingStopCore_subs (cm : CM) (c roomId : String) :
    (typingStopCore cm c roomId).1.roomSubscriptions = cm.roomSubscriptions := by
  unfold typingStopCore
  cases getState cm c with
  | none => rfl
  | some s =>
    dsimp only
    cases s.userId with
    | none => rfl
    | some u =>
      dsimp only
      cases s.typingTimeout <;> rfl

theorem handleEditMessage_cm (sys : Sys) (c : String) (s : ConnectionState)
    (messageId content : String) (env : Env) :
    (handleEditMessage sys c s messageId content env).sys.cm = sys.cm := by
  unfold handleEditMessage
  cases s.userId with
  | none => rfl
  | some u =>
    dsimp only
    cases (ucEditMessage messageId u content sys.store env).2.2 with
    | none => rfl
    | some res =>
      cases res with
      | ok updated => cases s.roomId <;> rfl
      | err e => rfl

theorem handleDeleteMessage_cm (sys : Sys) (c : String) (s : ConnectionState)
    (messageId : String) (env : Env) :
    (handleDeleteMessage sys c s messageId env).sys.cm = sys.cm := by
  unfold handleDeleteMessage
  cases s.userId with
  | none => rfl
  | some u =>
    dsimp only
    cases (ucDeleteMessage messageId u sys.store env).2.2 with
    | none => rfl
    | some res =>
      cases res with
      | ok d => cases s.roomId <;> rfl
      | err e => rfl

theorem handleUpdateStatus_cm (sys : Sys) (c : String) (s : ConnectionState)
    (status : UserStatus) (env : Env) :
    (handleUpdateStatus sys c s status env).sys.cm = sys.cm := by
  unfold handleUpdateStatus
  cases s.userId with
  | none => rfl
  | some u => rfl

/-- Subscriber-set membership can only shrink across `removeConnection`. -/
theorem removeConnection_subs (sys : Sys) (id : String) (now : Int) (f1 f2 : Bool)
    (c' r' : String) (h : c' ∈ subsOf (removeConnection sys id now f1 f2).sys.cm r') :
    c' ∈ subsOf sys.cm r' := by
  unfold removeConnection at h
  cases hg : getState sys.cm id with
  | none => rw [hg] at h; exact h
  | some s =>
    rw [hg] at h
    dsimp only at h
    cases ht : s.typingTimeout with
    | none =>
      rw [ht] at h
      cases hr : s.roomId with
      | none =>
        rw [hr] at h
        cases hu : s.userId with
        | none => rw [hu] at h; exact h
        | some u => rw [hu] at h; cases f1 <;> cases f2 <;> exact h
      | some r0 =>
        rw [hr] at h
        cases hu : s.userId with
        | none =>
          rw [hu] at h
          exact mem_subsOf_leaveRoomSub sys.cm id r0 c' r' h
        | some u =>
          rw [hu] at h
          cases f1 <;> cases f2 <;>
            exact mem_subsOf_leaveRoomSub sys.cm id r0 c' r' h
    | some t =>
      rw [ht] at h
      cases hr : s.roomId with
      | none =>
        rw [hr] at h
        cases hu : s.userId with
        | none => rw [hu] at h; exact h
        | some u => rw [hu] at h; cases f1 <;> cases f2 <;> exact h
      | some r0 =>
        rw [hr] at h
        cases hu : s.userId with
        | none =>
          rw [hu] at h
          have h2 : c' ∈ subsOf (leaveRoomSub (clearTimer sys.cm t) id r0) r' := h
          exact mem_subsOf_leaveRoomSub (clearTimer sys.cm t) id r0 c' r' h2
        | some u =>
          rw [hu] at h
          cases f1 <;> cases f2 <;>
            (have h2 : c' ∈ subsOf (leaveRoomSub (clearTimer sys.cm t) id r0) r' := h
             exact mem_subsOf_leaveRoomSub (clearTimer sys.cm t) id r0 c' r' h2)

/-- Any transport event either leaves every subscriber-set membership in
place or shrinks it — except a successful JOIN_ROOM, which adds exactly
the joining connection to the joined room. -/
theorem subs_applyAction (sys : Sys) (a : Action) (c' r' : String)
    (h : c' ∈ subsOf (applyAction sys a).sys.cm r') :
    c' ∈ subsOf sys.cm r' ∨
      ∃ un env, a = .frame c' (.JOIN_ROOM r' un) env := by
  cases a with
  | accept c => exact .inl h
  | fire tid =>
    left
    simp only [applyAction] at h
    unfold fireTimer at h
    cases hf : sys.cm.timers.find? (fun tm => tm.id == tid) with
    | none => rw [hf] at h; exact h
    | some tm =>
      rw [hf] at h
      dsimp only at h
      unfold subsOf at h ⊢
      rw [typingStopCore_subs] at h
      exact h
  | close c now =>
    left
    simp only [applyAction] at h
    exact removeConnection_subs sys c now false false c' r' h
  | frame c ev env =>
    simp only [applyAction] at h
    unfold step at h
    cases hg : getState sys.cm c with
    | none => rw [hg] at h; exact .inl h
    | some s =>
      rw [hg] at h
      dsimp only at h
      cases ev with
      | JOIN_ROOM roomId username =>
        unfold handleJoinRoom at h
        dsimp only at h
        cases huc : (ucJoinRoom roomId username sys.store env).2.2 with
        | none => rw [huc] at h; exact .inl h
        | some res =>
          rw [huc] at h
          cases res with
          | err e => exact .inl h
          | ok data =>
            dsimp only at h
            rcases mem_subsOf_joinRoomSub _ _ _ _ _ h with h1 | ⟨hc, hr⟩
            · exact .inl h1
            · subst hc; subst hr
              exact .inr ⟨username, env, rfl⟩
      | LEAVE_ROOM roomId =>
        unfold handleLeaveRoom at h
        cases hu : s.userId with
        | none => rw [hu] at h; exact .inl h
        | some u =>
          cases hr0 : s.roomId with
          | none => rw [hu, hr0] at h; exact .inl h
          | some r0 =>
            rw [hu, hr0] at h
            dsimp only at h
            exact .inl (mem_subsOf_leaveRoomSub _ _ _ _ _ h)
      | SEND_MESSAGE roomId content replyTo =>
        left
        unfold handleSendMessage at h
        cases hu : s.userId with
        | none => rw [hu] at h; exact h
        | some u =>
          cases hun : s.username with
          | none => rw [hu, hun] at h; exact h
          | some un =>
            rw [hu, hun] at h
            dsimp only at h
            by_cases hrl : !(checkRateLimit s env.now).1
            · rw [if_pos hrl] at h
              exact h
            · rw [if_neg hrl] at h
              cases huc : (ucSendMessage roomId u content replyTo sys.store env).2.2 with
              | none => rw [huc] at h; exact h
              | some res =>
                rw [huc] at h
                cases res with
                | err e => exact h
                | ok dto =>
                  dsimp only at h
                  unfold subsOf at h ⊢
                  rw [typingStopCore_subs] at h
                  exact h
      | EDIT_MESSAGE messageId content =>
        left
        unfold subsOf at h ⊢
        rw [handleEditMessage_cm] at h
        exact h
      | DELETE_MESSAGE messageId =>
        left
        unfold subsOf at h ⊢
        rw [handleDeleteMessage_cm] at h
        exact h
      | TYPING_START roomId =>
        left
        unfold handleTypingStart at h
        cases hu : s.userId with
        | none => rw [hu] at h; exact h
        | some u =>
          cases hun : s.username with
          | none => rw [hu, hun] at h; exact h
          | some un =>
            rw [hu, hun] at h
            dsimp only at h
            cases ht2 : s.typingTimeout <;> rw [ht2] at h <;> exact h
      | TYPING_STOP roomId =>
        left
        unfold handleTypingStop at h
        unfold subsOf at h ⊢
        rw [typingStopCore_subs] at h
        exact h
      | UPDATE_STATUS status =>
        left
        unfold subsOf at h ⊢
        rw [handleUpdateStatus_cm] at h
        exact h


/-- C4 counterexample: on a fresh system with rooms `general` and `tech`,
a connection that joins `general` and then sends a bare JOIN_ROOM for
`tech` (no LEAVE_ROOM in between, which the frame schema allows) ends up
in BOTH rooms' subscriber sets: the reachable registry state violates the
single-active-room invariant. -/
theorem C4_single_room_invariant_cex :
    "c1" ∈ subsOf (runTrace sys0
      [Action.accept "c1",
       Action.frame "c1" (.JOIN_ROOM "general" "alice") env1,
       Action.frame "c1" (.JOIN_ROOM "tech" "alice") env2]).cm "general" ∧
    "c1" ∈ subsOf (runTrace sys0
      [Action.accept "c1",
       Action.frame "c1" (.JOIN_ROOM "general" "alice") env1,
       Action.frame "c1" (.JOIN_ROOM "tech" "alice") env2]).cm "tech" ∧
    ¬ AtMostOneRoom (runTrace sys0
      [Action.accept "c1",
       Action.frame "c1" (.JOIN_ROOM "general" "alice") env1,
       Action.frame "c1" (.JOIN_ROOM "tech" "alice") env2]).cm := by
  refine ⟨by decide, by decide, ?_⟩
  intro hinv
  have := hinv "c1" "general" "tech" (by decide) (by decide)
  exact absurd this (by decide)

/-- C4 (amended): the single-active-room invariant holds for every trace
in which each JOIN_ROOM frame arrives on a connection subscribed to no
room (fresh connections, or connections that left or closed their previous
room first); a bare JOIN_ROOM on a connection still subscribed to another
room breaks it, as the counterexample shows. -/
theorem C4_single_room_invariant :
    ∀ (tr : List Action) (sys : Sys),
      AtMostOneRoom sys.cm → OkRun sys tr → AtMostOneRoom (runTrace sys tr).cm := by
  intro tr
  induction tr with
  | nil => intro sys h _; exact h
  | cons a tr ih =>
    intro sys hinv hok
    unfold OkRun at hok
    unfold runTrace
    apply ih _ ?_ hok.2
    intro c r₁ r₂ h1 h2
    rcases subs_applyAction sys a c r₁ h1 with h1' | ⟨un1, e1, ha1⟩
    · rcases subs_applyAction sys a c r₂ h2 with h2' | ⟨un2, e2, ha2⟩
      · exact hinv c r₁ r₂ h1' h2'
      · exfalso
        subst ha2
        exact hok.1 r₁ h1'
    · rcases subs_applyAction sys a c r₂ h2 with h2' | ⟨un2, e2, ha2⟩
      · exfalso
        subst ha1
        exact hok.1 r₂ h2'
      · rw [ha1] at ha2
        simp only [Action.frame.injEq, ClientEvent.JOIN_ROOM.injEq, true_and] at ha2
        exact ha2.1.1

/-- Witness for `C4_single_room_invariant`: the join/leave/rejoin trace in
which alice joins `general`, leaves it, and then joins `tech`. -/
theorem C4_single_room_invariant_witness :
    AtMostOneRoom (runTrace sys0
      [Action.accept "c1",
       Action.frame "c1" (.JOIN_ROOM "general" "alice") env1,
       Action.frame "c1" (.LEAVE_ROOM "general") env2,
       Action.frame "c1" (.JOIN_ROOM "tech" "alice") env2]).cm := by
  apply C4_single_room_invariant
  · intro c r₁ r₂ h1 h2
    exact absurd h1 (by simp [sys0, subsOf, alget])
  · refine ⟨trivial, ?_, trivial, ?_, trivial⟩
    · intro r
      intro hmem
      revert hmem
      show "c1" ∉ subsOf (runTrace sys0 [Action.accept "c1"]).cm r
      have : (runTrace sys0 [Action.accept "c1"]).cm.roomSubscriptions = [] := by decide
      simp [subsOf, alget, this]
    · intro r
      intro hmem
      revert hmem
      show "c1" ∉ subsOf (runTrace sys0
        [Action.accept "c1",
         Action.frame "c1" (.JOIN_ROOM "general" "alice") env1,
         Action.frame "c1" (.LEAVE_ROOM "general") env2]).cm r
      have : (runTrace sys0
        [Action.accept "c1",
         Action.frame "c1" (.JOIN_ROOM "general" "alice") env1,
         Action.frame "c1" (.LEAVE_ROOM "general") env2]).cm.roomSubscriptions = [] := by decide
      simp [subsOf, alget, this]

-- ============================================
-- C10: LEAVE_ROOM frame effect on session state
-- ============================================

theorem checkRateLimit_userId (s : ConnectionState) (now : Int) :
    (checkRateLimit s now).2.userId = s.userId := by
  unfold checkRateLimit
  dsimp only
  split <;> rfl

theorem not_mem_subsOf_after_leave (cm : CM) (c roomId : String)
    (hnd : (subsOf cm roomId).Nodup) :
    c ∉ subsOf (leaveRoomSub cm c roomId) roomId := by
  unfold leaveRoomSub
  cases hg : alget cm.roomSubscriptions roomId with
  | none =>
    intro hc
    unfold subsOf at hc
    rw [hg] at hc
    exact absurd hc (List.not_mem_nil c)
  | some subs =>
    dsimp only
    by_cases he : subs.erase c = []
    · rw [if_pos he]
      intro hc
      unfold subsOf at hc
      rw [alget_aldel_self] at hc
      exact absurd hc (List.not_mem_nil c)
    · rw [if_neg he]
      intro hc
      unfold subsOf at hc
      rw [alget_alset_self, Option.getD_some] at hc
      have hnd2 : subs.Nodup := by
        unfold subsOf at hnd
        rw [hg, Option.getD_some] at hnd
        exact hnd
      rw [List.Nodup.mem_erase_iff hnd2] at hc
      exact hc.1 rfl

theorem typingStopCore_outs (cm : CM) (c roomId u : String) (s : ConnectionState)
    (hs : getState cm c = some s) (hu : s.userId = some u) :
    (typingStopCore cm c roomId).2 =
      [Output.broadcast roomId (.USER_STOPPED_TYPING u roomId) (some c)] := by
  unfold typingStopCore
  rw [hs]
  dsimp only
  rw [hu]

theorem ucSendMessage_success (roomId u content : String) (replyTo : Option String)
    (st : Store) (env : Env) (room : Room) (author : User)
    (hroom : roomsFindById st roomId = some room)
    (hau : usersFindById st u = some author) :
    ∃ dto, ucSendMessage roomId u content replyTo st env =
      (messagesSave st (messageCreate roomId u content replyTo env.mid env.now),
       [Output.emitEvent "message:sent" env.mid], some (.ok dto)) := by
  unfold ucSendMessage
  rw [hroom]
  dsimp only
  rw [hau]
  dsimp only
  cases hmd : messageToDTO
      (messagesSave st (messageCreate roomId u content replyTo env.mid env.now))
      (messageCreate roomId u content replyTo env.mid env.now) with
  | none =>
    exfalso
    unfold messageToDTO at hmd
    have heq : usersFindById
        (messagesSave st (messageCreate roomId u content replyTo env.mid env.now))
        (messageCreate roomId u content replyTo env.mid env.now).authorId =
        usersFindById st u := rfl
    rw [heq, hau] at hmd
    cases hmd
  | some dto => exact ⟨dto, rfl⟩

/-- C10: LEAVE_ROOM leaves the session state untouched (userId, username,
roomId, typing and rate fields keep the values set at join; only the room
subscriber set loses the connection), and a subsequent SEND_MESSAGE on the
same connection still passes the authorization gate, is accepted by the
use-case layer, and is broadcast (with no exclusion) to the named room the
connection just left. -/
theorem C10_leave_room_frame_effect :
    (∀ (sys : Sys) (c : String) (s : ConnectionState) (u r0 roomId : String) (env : Env),
      getState sys.cm c = some s → s.userId = some u → s.roomId = some r0 →
      (subsOf sys.cm roomId).Nodup →
      getState (step sys c (.LEAVE_ROOM roomId) env).sys.cm c = some s ∧
      c ∉ subsOf (step sys c (.LEAVE_ROOM roomId) env).sys.cm roomId) ∧
    (∀ (sys1 : Sys) (c : String) (s : ConnectionState) (u un roomId content : String)
       (replyTo : Option String) (env2 : Env) (room : Room) (author : User),
      getState sys1.cm c = some s → s.userId = some u → s.username = some un →
      (checkRateLimit s env2.now).1 = true →
      roomsFindById sys1.store roomId = some room →
      usersFindById sys1.store u = some author →
      ∃ dto,
        step sys1 c (.SEND_MESSAGE roomId content replyTo) env2 =
          { sys := { cm := (typingStopCore
                        (setState sys1.cm c (checkRateLimit s env2.now).2) c roomId).1,
                     store := messagesSave sys1.store
                       (messageCreate roomId u content replyTo env2.mid env2.now) },
            outs := [Output.emitEvent "message:sent" env2.mid,
                     Output.broadcast roomId (.USER_STOPPED_TYPING u roomId) (some c),
                     Output.broadcast roomId (.MESSAGE_RECEIVED dto) none],
            ucCalls := ["sendMessage"], threw := false }) := by
  constructor
  · intro sys c s u r0 roomId env hs hu hr0 hnd
    have hstep : step sys c (.LEAVE_ROOM roomId) env = handleLeaveRoom sys c s roomId env := by
      simp [step, hs]
    rw [hstep]
    unfold handleLeaveRoom
    rw [hu, hr0]
    dsimp only
    constructor
    · unfold getState
      rw [leaveRoomSub_connections]
      exact hs
    · exact not_mem_subsOf_after_leave sys.cm c roomId hnd
  · intro sys1 c s u un roomId content replyTo env2 room author hs hu hun hrl hroom hau
    obtain ⟨dto, huc⟩ := ucSendMessage_success roomId u content replyTo sys1.store env2
      room author hroom hau
    refine ⟨dto, ?_⟩
    have hs2 : getState (setState sys1.cm c (checkRateLimit s env2.now).2) c =
        some (checkRateLimit s env2.now).2 := by
      unfold getState setState
      exact alget_alset_self _ _ _
    have hu2 : (checkRateLimit s env2.now).2.userId = some u := by
      rw [checkRateLimit_userId]
      exact hu
    have hstop := typingStopCore_outs (setState sys1.cm c (checkRateLimit s env2.now).2)
      c roomId u (checkRateLimit s env2.now).2 hs2 hu2
    simp [step, hs, handleSendMessage, hu, hun, hrl, huc, hstop]

/-- Witness for `C10_leave_room_frame_effect`: alice leaves `general` on
`sysJoined` and then sends "hi" to it; the message is accepted and
broadcast to `general` although `c1` is no longer subscribed. -/
theorem C10_leave_room_frame_effect_witness :
    (getState (step sysJoined "c1" (.LEAVE_ROOM "general") env1).sys.cm "c1" = some csAlice ∧
     "c1" ∉ subsOf (step sysJoined "c1" (.LEAVE_ROOM "general") env1).sys.cm "general") ∧
    ∃ dto,
      step (step sysJoined "c1" (.LEAVE_ROOM "general") env1).sys "c1"
          (.SEND_MESSAGE "general" "hi" none) env2 =
        { sys := { cm := (typingStopCore
                      (setState (step sysJoined "c1" (.LEAVE_ROOM "general") env1).sys.cm "c1"
                        (checkRateLimit csAlice env2.now).2) "c1" "general").1,
                   store := messagesSave (step sysJoined "c1" (.LEAVE_ROOM "general") env1).sys.store
                     (messageCreate "general" "u1" "hi" none env2.mid env2.now) },
          outs := [Output.emitEvent "message:sent" env2.mid,
                   Output.broadcast "general" (.USER_STOPPED_TYPING "u1" "general") (some "c1"),
                   Output.broadcast "general" (.MESSAGE_RECEIVED dto) none],
          ucCalls := ["sendMessage"], threw := false } :=
  ⟨C10_leave_room_frame_effect.1 sysJoined "c1" csAlice "u1" "general" "general" env1
     (by decide) rfl rfl (by decide),
   C10_leave_room_frame_effect.2 (step sysJoined "c1" (.LEAVE_ROOM "general") env1).sys
     "c1" csAlice "u1" "alice" "general" "hi" none env2
     roomGeneral { aliceUser with status := .offline, lastSeenAt := some env1.now }
     (by decide) rfl rfl (by decide) (by decide) (by decide)⟩

end ChatApp
